import Mathlib

/-!
# Medication dispenser firmware (`esp32/src/main.cpp`)

A shallow embedding of the firmware's command handlers, connectivity loops and
telemetry timer, followed by theorems about them.

Conventions of the embedding:

* `uint32_t`, `uint8_t`, `unsigned long` values are `Nat` with an explicit
  reduction modulo `2^w` at every point where the C++ code narrows a value;
  `int` and `long` values are `Int`.
* Arduino `String`s are Lean `String`s whose characters stand for single bytes.
* The global variables of the sketch and the observable state of its library
  objects (pixel buffer, preferences store, broker session flag, serial
  console, calls made to the network libraries) are the fields of `Device`.
* Everything the outside world decides (link status polls, handshake
  outcomes, clock readings, inbound messages, HTTP and flash results) is read
  from an `Env` of answer tapes; `Device` counts how many answers of each tape
  have been consumed.
* Libraries are modelled at the call boundary. A published message is the
  content of the `String` handed to `publish`, as the list of the documents
  serialised into it; an inbound message is
  the outcome of `deserializeJson`; a pixel holds the colour handed to
  `setPixelColor`, before the strip-wide brightness factor of the library;
  `Serial.begin` and the opening and closing of the preferences store are
  left out.
* `ESP.restart()` does not return: it sets `restarted`, and no statement of
  the sketch is run after it.
* `reconnectMQTT` may loop for ever. It, and the functions that call it, take
  a budget of loop tests and return the device reached together with a flag
  telling whether the function returned within the budget.
-/

namespace Pilly

/-! ## Configuration constants

The three sizes appear below as the literals 24, 6 and 3. -/

def LED_COUNT : Nat := 24
def COMPARTMENTS : Nat := 6
def LEDS_PER_COMPARTMENT : Nat := 3
def DEVICE_ID : String := "ESP32_001"
def MQTT_BASE_TOPIC : String := "medication/devices"
def HTTP_CODE_OK : Int := 200
def LONG_MAX : Int := 2147483647
def LONG_MIN : Int := -2147483648

/-! ## Colour arithmetic -/

/-- Library call `strip.Color(r, g, b)` on three `uint8_t` arguments:
`(r << 16) | (g << 8) | b`. -/
def Color (r g b : Nat) : Nat :=
  ((r % 256) <<< 16) ||| ((g % 256) <<< 8) ||| (b % 256)

/-- The C `isspace` test in the default locale. -/
def isSpace (c : Char) : Bool :=
  c = ' ' || c = '\t' || c = '\n' || c = '\x0b' || c = '\x0c' || c = '\r'

/-- Value of a base-16 digit, if the character is one. -/
def hexVal (c : Char) : Option Nat :=
  if 48 ≤ c.toNat ∧ c.toNat ≤ 57 then some (c.toNat - 48)
  else if 97 ≤ c.toNat ∧ c.toNat ≤ 102 then some (c.toNat - 87)
  else if 65 ≤ c.toNat ∧ c.toNat ≤ 70 then some (c.toNat - 55)
  else none

/-- The digit loop of `strtol`: accumulate base-16 digits until the first
character that is not one. The magnitude is kept exact; the caller clamps. -/
def strtolDigits : List Char → Nat → Nat
  | [], acc => acc
  | c :: cs, acc =>
    match hexVal c with
    | some d => strtolDigits cs (acc * 16 + d)
    | none => acc

/-- Optional sign in front of the digits of `strtol`. -/
def strtolSign : List Char → Bool × List Char
  | '-' :: cs => (true, cs)
  | '+' :: cs => (false, cs)
  | cs => (false, cs)

/-- Optional `0x` / `0X` in front of the digits of `strtol` in base 16. -/
def strtolSkip0x : List Char → List Char
  | '0' :: 'x' :: cs => cs
  | '0' :: 'X' :: cs => cs
  | cs => cs

/-- C library `strtol(s, NULL, 16)` for the 32-bit `long` of the target:
leading white space, an optional sign, an optional `0x`, then hexadecimal
digits; the result saturates at `LONG_MAX` / `LONG_MIN`. -/
def strtol16 (s : List Char) : Int :=
  let body := strtolSign (s.dropWhile isSpace)
  let m : Int := (strtolDigits (strtolSkip0x body.2) 0 : Nat)
  if body.1 then max (-m) LONG_MIN else min m LONG_MAX

/-- Source `hexToColor`: drop one leading `#`, parse with `strtol`, take the
three low bytes (`>> 16`, `>> 8` are arithmetic shifts of a `long`, written as
floor division; `& 0xFF` is the remainder modulo 256) and pack them. -/
def hexToColor (hex : String) : Nat :=
  let hex := match hex.data with
    | '#' :: rest => rest
    | cs => cs
  let number : Int := strtol16 hex
  let r := ((number / 65536) % 256).toNat
  let g := ((number / 256) % 256).toNat
  let b := (number % 256).toNat
  Color r g b

/-! ## Data model -/

/-- Source `struct CompartmentConfig`: a `uint32_t` colour and a `uint8_t`
brightness. -/
structure CompartmentConfig where
  color : Nat
  brightness : Nat
deriving DecidableEq, Repr

/-- A value stored in a JSON document built by the firmware. -/
inductive JsonValue where
  | str (s : String)
  | num (n : Int)
deriving DecidableEq, Repr

/-- A JSON document as the list of its members in insertion order. -/
abbrev JsonDoc := List (String × JsonValue)

/-- The text of an Arduino `String` into which JSON documents were
serialised: the documents it holds, in the order they were written. -/
abbrev Payload := List JsonDoc

/-- Library call `serializeJson(doc, output)` with a `String` as output. In
ArduinoJson 6, whose `StaticJsonDocument` the sketch uses, the text of the
document is appended to the string; what the string already holds is kept. -/
def serializeJson (doc : JsonDoc) (output : Payload) : Payload := output ++ [doc]

/-- Calls made by the firmware to its hardware and network libraries, in the
order they are made. -/
inductive Event where
  | delay (ms : Nat)
  | wifiMode
  | wifiBegin (ssid password : String)
  | wifiDisconnect
  | mqttSetServer (server : String) (port : Nat)
  | mqttSetCallback
  | mqttConnect (clientId : String) (credentials : Option (String × String)) (ok : Bool)
  | mqttSubscribe (topic : String)
  | mqttPublish (topic : String) (payload : Payload)
  | httpBegin (url : String)
  | httpGet (code : Int)
  | updateBegin (size : Nat) (ok : Bool)
  | updateWriteStream (written : Nat)
  | updateEnd (ok : Bool)
  | httpEnd
  | stripBegin
  | stripShow
  | restart
deriving DecidableEq, Repr

/-- The namespace `medication` of the persisted key/value store. -/
structure Preferences where
  wifi_ssid : Option String
  wifi_pass : Option String
  mqtt_server : Option String
  mqtt_port : Option Int
deriving DecidableEq, Repr

/-- Globals of the sketch and observable state of its library objects. -/
structure Device where
  wifi_ssid : String
  wifi_password : String
  mqtt_server : String
  mqtt_port : Int
  mqtt_user : String
  mqtt_password : String
  statusTopic : String
  commandTopic : String
  responseTopic : String
  compartments : Fin 6 → CompartmentConfig
  /-- The `static unsigned long lastStatusUpdate` of `loop`. -/
  lastStatusUpdate : Nat
  /-- Pixel buffer of the strip: the colour last handed to `setPixelColor`
  for each LED. The strip-wide brightness factor is kept apart. -/
  pixels : Fin 24 → Nat
  stripBrightness : Nat
  preferences : Preferences
  /-- Whether the broker client believes its session is established. -/
  session : Bool
  serial : List String
  events : List Event
  /-- Set by `ESP.restart()`, after which no further statement runs. -/
  restarted : Bool
  nWifi : Nat
  nConnect : Nat
  nAlive : Nat
  nMillis : Nat
  nInfo : Nat
  nLoop : Nat
  nOta : Nat

/-- Values read from the network stack and the chip for a status report or a
connection banner. -/
structure NetInfo where
  macAddress : String
  localIP : String
  ssid : String
  rssi : Int
  freeHeap : Nat

/-- What the world answers during one firmware download. -/
structure OtaEnv where
  httpCode : Int
  contentLength : Int
  canBegin : Bool
  written : Nat
  endOk : Bool
  updateError : Nat
  isFinished : Bool

/-- A successfully decoded command message: the `command` member read as a
string, and the members of `payload` read as strings or as integers. -/
structure Decoded where
  command : String
  paramStr : String → String
  paramInt : String → Int

/-- An inbound message on the command channel: its topic and the outcome of
`deserializeJson` on its payload (an error text or the decoded document). -/
structure Inbound where
  topic : String
  doc : Except String Decoded

/-- Answer tapes of the environment; the `k`-th call of each kind reads
position `k`. -/
structure Env where
  /-- Whether `WiFi.status()` is `WL_CONNECTED`. -/
  wifiStatus : Nat → Bool
  /-- The client state after `mqttClient.connect`; `0` is a successful
  handshake. -/
  brokerConnect : Nat → Int
  /-- Whether the transport under an established session is still open when
  `mqttClient.connected()` is asked. -/
  sessionAlive : Nat → Bool
  millis : Nat → Nat
  info : Nat → NetInfo
  /-- Messages handed to the callback by one `mqttClient.loop()`. -/
  inbound : Nat → List Inbound
  ota : Nat → OtaEnv

/-! ## Library primitives -/

/-- Library call `Serial.print(t)`. -/
def Serial_print (t : String) (s : Device) : Device :=
  { s with serial := s.serial ++ [t] }

/-- Library call `Serial.println(t)`. -/
def Serial_println (t : String) (s : Device) : Device :=
  { s with serial := s.serial ++ [t ++ "\r\n"] }

/-- Record one library call. -/
def emit (e : Event) (s : Device) : Device :=
  { s with events := s.events ++ [e] }

/-- Library call `delay(ms)`. -/
def delay (ms : Nat) (s : Device) : Device := emit (Event.delay ms) s

/-- Library call `ESP.restart()`. -/
def restart (s : Device) : Device :=
  { emit Event.restart s with restarted := true }

/-- Library call `millis()` as a 32-bit `unsigned long`. -/
def millis (env : Env) (s : Device) : Nat × Device :=
  (env.millis s.nMillis % 2 ^ 32, { s with nMillis := s.nMillis + 1 })

/-- The test `WiFi.status() == WL_CONNECTED`. -/
def wifiConnected (env : Env) (s : Device) : Bool × Device :=
  (env.wifiStatus s.nWifi, { s with nWifi := s.nWifi + 1 })

/-- Library call `mqttClient.connected()`: true when a session is established and its
transport is still open; a closed transport ends the session. -/
def mqttConnected (env : Env) (s : Device) : Bool × Device :=
  let up := s.session && env.sessionAlive s.nAlive
  (up, { s with session := up, nAlive := s.nAlive + 1 })

/-- Library call `mqttClient.publish(topic, output.c_str())`. -/
def mqttPublish (topic : String) (output : Payload) (s : Device) : Device :=
  emit (Event.mqttPublish topic output) s

/-- Library call `strip.setPixelColor(n, c)` with a `uint16_t` index: indices past the end
of the strip are ignored by the library. -/
def setPixelColor (n : Int) (c : Nat) (s : Device) : Device :=
  let k := (n % 65536).toNat
  if h : k < 24 then { s with pixels := Function.update s.pixels ⟨k, h⟩ c } else s

/-- The two-member response document `{status, message}`. -/
def response (status message : String) : JsonDoc :=
  [("status", JsonValue.str status), ("message", JsonValue.str message)]

/-! ## Telemetry -/

/-- Source `publishStatus`: one snapshot on the status channel. -/
def publishStatus (env : Env) (s : Device) : Device :=
  let info := env.info s.nInfo
  let now := millis env { s with nInfo := s.nInfo + 1 }
  let doc : JsonDoc :=
    [("device_id", JsonValue.str DEVICE_ID),
     ("mac_address", JsonValue.str info.macAddress),
     ("ip_address", JsonValue.str info.localIP),
     ("wifi_ssid", JsonValue.str info.ssid),
     ("rssi", JsonValue.num info.rssi),
     ("firmware_version", JsonValue.str "1.0.0"),
     ("uptime", JsonValue.num ((now.1 / 1000 : Nat) : Int)),
     ("free_heap", JsonValue.num (info.freeHeap : Int))]
  let output : Payload := serializeJson doc []
  Serial_println "Status published" (mqttPublish now.2.statusTopic output now.2)

/-! ## Compartment lighting -/

/-- Source `setCompartmentColor`; `brightness` is the `uint8_t` parameter.
Each channel is `((color >> s) & 0xFF) * brightness / 100` narrowed to
`uint8_t`. -/
def setCompartmentColor (compartment : Int) (color brightness : Nat) (s : Device) : Device :=
  let startLED := compartment * 3
  let r := (((color >>> 16) &&& 0xFF) * brightness / 100) % 256
  let g := (((color >>> 8) &&& 0xFF) * brightness / 100) % 256
  let b := ((color &&& 0xFF) * brightness / 100) % 256
  let adjustedColor := Color r g b
  let s := setPixelColor (startLED + 0) adjustedColor s
  let s := setPixelColor (startLED + 1) adjustedColor s
  let s := setPixelColor (startLED + 2) adjustedColor s
  emit Event.stripShow s

/-- Source `handleLEDControl`. The `int` brightness is narrowed to `uint8_t`
both when passed to `setCompartmentColor` and when stored. -/
def handleLEDControl (compartment : Int) (color : String) (brightness : Int)
    (s : Device) : Device :=
  let s := Serial_println "\n=== LED Control ===" s
  let s := Serial_print "Compartment: " s
  let s := Serial_println (toString compartment) s
  let s := Serial_print "Color: " s
  let s := Serial_println color s
  let s := Serial_print "Brightness: " s
  let s := Serial_println (toString brightness) s
  if h : compartment < 0 ∨ compartment ≥ 6 then
    Serial_println "Invalid compartment number" s
  else
    let ledColor := hexToColor color
    let s := setCompartmentColor compartment ledColor (brightness % 256).toNat s
    let slot : Fin 6 := ⟨compartment.toNat, by omega⟩
    let entry : CompartmentConfig :=
      { color := ledColor, brightness := (brightness % 256).toNat }
    let s := { s with compartments := Function.update s.compartments slot entry }
    let doc : JsonDoc :=
      [("status", JsonValue.str "success"),
       ("message", JsonValue.str "LED updated"),
       ("compartment", JsonValue.num compartment)]
    let output : Payload := serializeJson doc []
    mqttPublish s.responseTopic output s

/-! ## Persistence, reboot and credential change -/

/-- Library call `preferences.getString(key, buf, size)`: the buffer is overwritten only
when the key exists and its value fits with its terminator. -/
def prefsGetString (stored : Option String) (size : Nat) (current : String) : String :=
  match stored with
  | some v => if v.length + 1 ≤ size then v else current
  | none => current

/-- Source `loadConfig`. -/
def loadConfig (s : Device) : Device :=
  let s := { s with
    wifi_ssid := prefsGetString s.preferences.wifi_ssid 32 s.wifi_ssid
    wifi_password := prefsGetString s.preferences.wifi_pass 64 s.wifi_password
    mqtt_server := prefsGetString s.preferences.mqtt_server 64 s.mqtt_server
    mqtt_port := s.preferences.mqtt_port.getD 1883 }
  Serial_println "Configuration loaded from preferences" s

/-- Source `saveConfig`. -/
def saveConfig (s : Device) : Device :=
  let s := { s with preferences :=
    { wifi_ssid := some s.wifi_ssid
      wifi_pass := some s.wifi_password
      mqtt_server := some s.mqtt_server
      mqtt_port := some s.mqtt_port } }
  Serial_println "Configuration saved to preferences" s

/-- Source `handleReboot`. -/
def handleReboot (s : Device) : Device :=
  let s := Serial_println "\n=== Rebooting Device ===" s
  let output : Payload := serializeJson (response "rebooting" "Device will reboot now") []
  let s := mqttPublish s.responseTopic output s
  let s := delay 1000 s
  restart s

/-- Library call `str.toCharArray(buf, size)`: at most `size - 1` characters are copied. -/
def toCharArray (str : String) (size : Nat) : String :=
  String.mk (str.data.take (size - 1))

/-- Source `handleWiFiChange`. -/
def handleWiFiChange (ssid password : String) (s : Device) : Device :=
  let s := Serial_println "\n=== WiFi Change ===" s
  let s := Serial_println ("New SSID: " ++ ssid) s
  let s := { s with
    wifi_ssid := toCharArray ssid 32
    wifi_password := toCharArray password 64 }
  let s := saveConfig s
  let output : Payload :=
    serializeJson (response "success" "WiFi credentials updated, rebooting") []
  let s := mqttPublish s.responseTopic output s
  let s := delay 1000 s
  restart s

/-! ## Firmware update -/

/-- Source `handleOTAUpdate`. The single `response` document is re-filled at
each milestone and serialised into the single `String output`, which is never
cleared: the terminal publish sends what the first serialisation left in the
string followed by the terminal document. The `int` content length is
converted to the `size_t` parameter of `Update.begin`. -/
def handleOTAUpdate (env : Env) (url version : String) (s : Device) : Device :=
  let o := env.ota s.nOta
  let s := { s with nOta := s.nOta + 1 }
  let s := Serial_println "\n=== OTA Update ===" s
  let s := Serial_println ("URL: " ++ url) s
  let s := Serial_println ("Version: " ++ version) s
  let output : Payload := serializeJson (response "starting" "OTA update initiated") []
  let s := mqttPublish s.responseTopic output s
  let s := emit (Event.httpBegin url) s
  let s := emit (Event.httpGet o.httpCode) s
  if o.httpCode = HTTP_CODE_OK then
    let s := emit (Event.updateBegin (o.contentLength % 2 ^ 32).toNat o.canBegin) s
    if o.canBegin then
      let s := Serial_println "Beginning OTA update..." s
      let s := emit (Event.updateWriteStream o.written) s
      let s :=
        if (o.written : Int) = o.contentLength % 2 ^ 32 then
          Serial_println ("Written: " ++ toString o.written ++ " successfully") s
        else
          Serial_println
            ("Written only: " ++ toString o.written ++ "/" ++ toString o.contentLength) s
      let s := emit (Event.updateEnd o.endOk) s
      if o.endOk then
        if o.isFinished then
          let s := Serial_println "OTA Update successful! Rebooting..." s
          let output := serializeJson (response "success" "Update complete, rebooting") output
          let s := mqttPublish s.responseTopic output s
          let s := delay 1000 s
          restart s
        else
          let s := Serial_println "OTA Update failed" s
          let output := serializeJson (response "failed" "Update not finished") output
          let s := mqttPublish s.responseTopic output s
          emit Event.httpEnd s
      else
        let s := Serial_println ("Error during update: " ++ toString o.updateError) s
        let output := serializeJson (response "failed" "Error during update") output
        let s := mqttPublish s.responseTopic output s
        emit Event.httpEnd s
    else
      let s := Serial_println "Not enough space for OTA" s
      let output := serializeJson (response "failed" "Not enough space") output
      let s := mqttPublish s.responseTopic output s
      emit Event.httpEnd s
  else
    let s := Serial_println ("HTTP error: " ++ toString o.httpCode) s
    let output := serializeJson (response "failed" ("HTTP error: " ++ toString o.httpCode)) output
    let s := mqttPublish s.responseTopic output s
    emit Event.httpEnd s

/-! ## Command dispatch -/

/-- Source `mqttCallback`, given the topic and the outcome of decoding the
payload. -/
def mqttCallback (env : Env) (topic : String) (doc : Except String Decoded)
    (s : Device) : Device :=
  let s := Serial_println "\n=== MQTT Message Received ===" s
  let s := Serial_print "Topic: " s
  let s := Serial_println topic s
  match doc with
  | Except.error e =>
    let s := Serial_print "JSON parsing failed: " s
    Serial_println e s
  | Except.ok m =>
    let command := m.command
    let s := Serial_print "Command: " s
    let s := Serial_println command s
    if command = "reboot" then
      handleReboot s
    else if command = "ota_update" then
      handleOTAUpdate env (m.paramStr "url") (m.paramStr "version") s
    else if command = "wifi_change" then
      handleWiFiChange (m.paramStr "ssid") (m.paramStr "password") s
    else if command = "led_control" then
      handleLEDControl (m.paramInt "compartment") (m.paramStr "color")
        (m.paramInt "brightness") s
    else if command = "get_status" then
      publishStatus env s
    else
      Serial_println ("Unknown command: " ++ command) s

/-! ## Connectivity -/

/-- The polling loop of `setupWiFi`,
`while (WiFi.status() != WL_CONNECTED && attempts < 20)`, with
`remaining = 20 - attempts`. The status is polled before the counter is
compared, so it is polled once more when the counter has run out. -/
def joinLoop (env : Env) : Nat → Device → Device
  | 0, s => (wifiConnected env s).2
  | remaining + 1, s =>
    let st := wifiConnected env s
    if st.1 then st.2
    else joinLoop env remaining (Serial_print "." (delay 500 st.2))

/-- Source `setupWiFi`. -/
def setupWiFi (env : Env) (s : Device) : Device :=
  let s := Serial_println "\n=== WiFi Setup ===" s
  let s := Serial_print "Connecting to: " s
  let s := Serial_println s.wifi_ssid s
  let s := emit Event.wifiMode s
  let s := emit (Event.wifiBegin s.wifi_ssid s.wifi_password) s
  let s := joinLoop env 20 s
  let st := wifiConnected env s
  if st.1 then
    let info := env.info st.2.nInfo
    let s := { st.2 with nInfo := st.2.nInfo + 1 }
    let s := Serial_println "\nWiFi Connected!" s
    let s := Serial_print "IP Address: " s
    let s := Serial_println info.localIP s
    let s := Serial_print "MAC Address: " s
    Serial_println info.macAddress s
  else
    Serial_println "\nWiFi Connection Failed!" st.2

/-- Source `reconnectWiFi`. -/
def reconnectWiFi (env : Env) (s : Device) : Device :=
  let s := Serial_println "WiFi disconnected. Reconnecting..." s
  let s := emit Event.wifiDisconnect s
  let s := delay 1000 s
  setupWiFi env s

/-- One `mqttClient.connect(...)` of `reconnectMQTT`, with credentials when a
user name is configured; returns the client state (`0` on success). -/
def mqttConnect (env : Env) (s : Device) : Int × Device :=
  let rc := env.brokerConnect s.nConnect
  let clientId := "ESP32_" ++ DEVICE_ID
  let credentials :=
    if s.mqtt_user.length > 0 then some (s.mqtt_user, s.mqtt_password) else none
  let s := { s with nConnect := s.nConnect + 1, session := decide (rc = 0) }
  (rc, emit (Event.mqttConnect clientId credentials (decide (rc = 0))) s)

/-- Source `reconnectMQTT`, run for at most `fuel` evaluations of the loop
condition. The flag is `true` when the function has returned and `false` when
the loop was still running as the budget ran out. -/
def reconnectMQTT (env : Env) : Nat → Device → Device × Bool
  | 0, s => (s, false)
  | fuel + 1, s =>
    let c := mqttConnected env s
    if c.1 then (c.2, true)
    else
      let s := Serial_print "Connecting to MQTT broker..." c.2
      let r := mqttConnect env s
      if r.1 = 0 then
        let s := Serial_println "Connected!" r.2
        let s := emit (Event.mqttSubscribe s.commandTopic) s
        let s := Serial_println ("Subscribed to: " ++ s.commandTopic) s
        reconnectMQTT env fuel (publishStatus env s)
      else
        let s := Serial_print "Failed, rc=" r.2
        let s := Serial_print (toString r.1) s
        let s := Serial_println ". Retrying in 5 seconds..." s
        reconnectMQTT env fuel (delay 5000 s)

/-- Source `setupMQTT`. The `int` port is narrowed to the `uint16_t` parameter
of `setServer`. -/
def setupMQTT (env : Env) (fuel : Nat) (s : Device) : Device × Bool :=
  let s := Serial_println "\n=== MQTT Setup ===" s
  let s := emit (Event.mqttSetServer s.mqtt_server (s.mqtt_port % 65536).toNat) s
  let s := emit Event.mqttSetCallback s
  let s := if s.mqtt_user.length > 0 then Serial_println "Using MQTT authentication" s else s
  reconnectMQTT env fuel s

/-! ## Boot and main loop -/

/-- State of the globals at power-on, before `setup`, for a given content of
the persisted store. -/
def powerOn (prefs : Preferences) : Device :=
  { wifi_ssid := "YOUR_WIFI_SSID"
    wifi_password := "YOUR_WIFI_PASSWORD"
    mqtt_server := "YOUR_MQTT_BROKER"
    mqtt_port := 1883
    mqtt_user := ""
    mqtt_password := ""
    statusTopic := ""
    commandTopic := ""
    responseTopic := ""
    compartments := fun _ => { color := 0, brightness := 0 }
    lastStatusUpdate := 0
    pixels := fun _ => 0
    stripBrightness := 0
    preferences := prefs
    session := false
    serial := []
    events := []
    restarted := false
    nWifi := 0
    nConnect := 0
    nAlive := 0
    nMillis := 0
    nInfo := 0
    nLoop := 0
    nOta := 0 }

/-- Source `setup`. The flag is `false` when the broker loop inside
`setupMQTT` was still running as the budget ran out. -/
def setup (env : Env) (fuel : Nat) (s : Device) : Device × Bool :=
  let s := Serial_println "\n\n=== Medication System ESP32 ===" s
  let s := Serial_println ("Device ID: " ++ DEVICE_ID) s
  let s := loadConfig s
  let s := emit Event.stripBegin s
  let s := emit Event.stripShow s
  let s := { s with stripBrightness := 50 }
  let s := { s with compartments := fun _ => { color := Color 255 255 255, brightness := 100 } }
  let s := { s with
    statusTopic := MQTT_BASE_TOPIC ++ "/" ++ DEVICE_ID ++ "/status"
    commandTopic := MQTT_BASE_TOPIC ++ "/" ++ DEVICE_ID ++ "/command"
    responseTopic := MQTT_BASE_TOPIC ++ "/" ++ DEVICE_ID ++ "/response" }
  let s := setupWiFi env s
  let r := setupMQTT env fuel s
  if r.2 then
    let s := publishStatus env r.1
    (Serial_println "=== Setup Complete ===\n" s, true)
  else r

/-- Hand the pending inbound messages to the callback one after the other;
nothing runs after a restart. -/
def deliver (env : Env) : List Inbound → Device → Device
  | [], s => s
  | m :: ms, s =>
    let s := mqttCallback env m.topic m.doc s
    if s.restarted then s else deliver env ms s

/-- Library call `mqttClient.loop()`, as far as the sketch can see it: the
pending messages are handed to the callback. -/
def mqttClientLoop (env : Env) (s : Device) : Device :=
  deliver env (env.inbound s.nLoop) { s with nLoop := s.nLoop + 1 }

/-- The interval check that ends `loop`; the subtraction is that of two
32-bit `unsigned long` values. -/
def statusTimer (env : Env) (s : Device) : Device :=
  let now := millis env s
  if (now.1 + 2 ^ 32 - s.lastStatusUpdate) % 2 ^ 32 > 30000 then
    let s := publishStatus env now.2
    let stamp := millis env s
    { stamp.2 with lastStatusUpdate := stamp.1 }
  else now.2

/-- Source `loop`, one iteration. The flag is `false` when `reconnectMQTT`
was still running as the budget ran out. -/
def loop (env : Env) (fuel : Nat) (s : Device) : Device × Bool :=
  let w := wifiConnected env s
  let s := if w.1 then w.2 else reconnectWiFi env w.2
  let c := mqttConnected env s
  let r := if c.1 then (c.2, true) else reconnectMQTT env fuel c.2
  if r.2 then
    let s := mqttClientLoop env r.1
    if s.restarted then (s, true) else (statusTimer env s, true)
  else r

/-! ## Definitions used to state the properties -/

/-- The character of one base-16 digit, in upper or lower case. -/
def hexDigit (upper : Bool) (d : Nat) : Char :=
  if d < 10 then Char.ofNat (48 + d)
  else Char.ofNat ((if upper then 55 else 87) + d)

/-- Colour-to-hex formatting as the specification words it: the six base-16
digits `RRGGBB` of a 24-bit value, most significant first. It has no
counterpart in the source; `hexToColor` is compared against it. -/
def colorToHex (upper : Bool) (v : Nat) : String :=
  String.mk
    [hexDigit upper (v / 1048576 % 16), hexDigit upper (v / 65536 % 16),
     hexDigit upper (v / 4096 % 16), hexDigit upper (v / 256 % 16),
     hexDigit upper (v / 16 % 16), hexDigit upper (v % 16)]

/-- Bits 16-23 of a packed colour. -/
def redOf (p : Nat) : Nat := (p >>> 16) &&& 0xFF

/-- Bits 8-15 of a packed colour. -/
def greenOf (p : Nat) : Nat := (p >>> 8) &&& 0xFF

/-- Bits 0-7 of a packed colour. -/
def blueOf (p : Nat) : Nat := p &&& 0xFF

/-- The colour written by `setCompartmentColor` for a base colour and a
`uint8_t` brightness. -/
def adjusted (color brightness : Nat) : Nat :=
  Color ((((color >>> 16) &&& 0xFF) * brightness / 100) % 256)
    ((((color >>> 8) &&& 0xFF) * brightness / 100) % 256)
    (((color &&& 0xFF) * brightness / 100) % 256)

/-- Serial lines printed at the head of `handleLEDControl`. -/
def ledBanner (compartment : Int) (color : String) (brightness : Int) : List String :=
  ["\n=== LED Control ===\r\n", "Compartment: ", toString compartment ++ "\r\n", "Color: ",
   color ++ "\r\n", "Brightness: ", toString brightness ++ "\r\n"]

/-- The acknowledgment document of `handleLEDControl`. -/
def ledAck (compartment : Int) : JsonDoc :=
  [("status", JsonValue.str "success"), ("message", JsonValue.str "LED updated"),
   ("compartment", JsonValue.num compartment)]

/-! ## Sample environment and devices used for concrete runs -/

/-- A preferences store in which nothing has been saved yet. -/
def emptyPrefs : Preferences :=
  { wifi_ssid := none, wifi_pass := none, mqtt_server := none, mqtt_port := none }

/-- Network and chip readings of the sample world. -/
def sampleInfo : NetInfo :=
  { macAddress := "24:6F:28:00:00:01", localIP := "192.168.1.50", ssid := "home",
    rssi := -60, freeHeap := 200000 }

/-- A download of 1000 declared bytes in which every step succeeds. -/
def sampleOta : OtaEnv :=
  { httpCode := 200, contentLength := 1000, canBegin := true, written := 1000,
    endOk := true, updateError := 0, isFinished := true }

/-- A world in which the link is up, the broker accepts the first handshake,
the clock advances one second per reading and no message arrives. -/
def calmEnv : Env :=
  { wifiStatus := fun _ => true
    brokerConnect := fun _ => 0
    sessionAlive := fun _ => true
    millis := fun k => 1000 * k
    info := fun _ => sampleInfo
    inbound := fun _ => []
    ota := fun _ => sampleOta }

/-- The device as `setup` leaves it in the calm world. -/
def bootedDevice : Device := (setup calmEnv 2 (powerOn emptyPrefs)).1

/-- The decoded form of a `led_control` command. -/
def ledCommand (compartment : Int) (color : String) (brightness : Int) : Decoded :=
  { command := "led_control"
    paramStr := fun k => if k = "color" then color else ""
    paramInt := fun k =>
      if k = "compartment" then compartment else if k = "brightness" then brightness else 0 }

/-- The payloads published on one topic among a list of library calls. -/
def publishedOn (topic : String) : List Event → List Payload
  | [] => []
  | Event.mqttPublish t d :: es =>
    if t = topic then d :: publishedOn topic es else publishedOn topic es
  | _ :: es => publishedOn topic es

/-- Whether a library call opens, writes or finalises the flash region. -/
def isFlashCall : Event → Bool
  | Event.updateBegin _ _ => true
  | Event.updateWriteStream _ => true
  | Event.updateEnd _ => true
  | _ => false

/-- The library calls a handler added to the record of a device. -/
def callsSince (before after : Device) : List Event :=
  after.events.drop before.events.length

/-- Terminal response of a firmware update as the specification tabulates it,
from the HTTP status and the three flash results only. -/
def otaVerdict (httpCode : Int) (canBegin endOk isFinished : Bool) : JsonDoc :=
  if httpCode ≠ 200 then response "failed" ("HTTP error: " ++ toString httpCode)
  else if canBegin = false then response "failed" "Not enough space"
  else if endOk = false then response "failed" "Error during update"
  else if isFinished = false then response "failed" "Update not finished"
  else response "success" "Update complete, rebooting"

/-- Whether a firmware update ends in a restart, from the same four results. -/
def otaRestarts (httpCode : Int) (canBegin endOk isFinished : Bool) : Bool :=
  decide (httpCode = 200) && canBegin && endOk && isFinished

/-- A download that answers 404. -/
def notFoundOta : OtaEnv := { sampleOta with httpCode := 404 }

/-- Credentials `reconnectMQTT` hands to `mqttClient.connect`. -/
def brokerCredentials (s : Device) : Option (String × String) :=
  if s.mqtt_user.length > 0 then some (s.mqtt_user, s.mqtt_password) else none

/-- Library calls of `k` failed rounds of `reconnectMQTT`: a refused
handshake and a wait of 5000 ms, `k` times. -/
def failedRounds (credentials : Option (String × String)) : Nat → List Event
  | 0 => []
  | k + 1 =>
    Event.mqttConnect ("ESP32_" ++ DEVICE_ID) credentials false :: Event.delay 5000
      :: failedRounds credentials k

/-- Serial lines of `k` failed rounds of `reconnectMQTT` starting at
handshake number `n`. -/
def failedLines (env : Env) (n : Nat) : Nat → List String
  | 0 => []
  | k + 1 =>
    ["Connecting to MQTT broker...", "Failed, rc=", toString (env.brokerConnect n),
      ". Retrying in 5 seconds...\r\n"] ++ failedLines env (n + 1) k

/-- The device after `k` failed rounds of `reconnectMQTT`. -/
def afterFailedRounds (env : Env) (k : Nat) (s : Device) : Device :=
  { s with
    session := false
    nAlive := s.nAlive + k
    nConnect := s.nConnect + k
    serial := s.serial ++ failedLines env s.nConnect k
    events := s.events ++ failedRounds (brokerCredentials s) k }

/-- A world whose link is down at every poll and whose broker refuses every
handshake. -/
def deafEnv : Env :=
  { calmEnv with wifiStatus := fun _ => false, brokerConnect := fun _ => -2 }

/-- The device after the successful round of `reconnectMQTT` (handshake,
subscription, status snapshot) and the loop test that follows it. -/
def afterHandshake (env : Env) (s : Device) : Device :=
  let s1 : Device :=
    { s with
      session := true
      nAlive := s.nAlive + 1
      nConnect := s.nConnect + 1
      serial := s.serial ++
        ["Connecting to MQTT broker...", "Connected!\r\n",
         "Subscribed to: " ++ s.commandTopic ++ "\r\n"]
      events := s.events ++
        [Event.mqttConnect ("ESP32_" ++ DEVICE_ID) (brokerCredentials s) true,
         Event.mqttSubscribe s.commandTopic] }
  let s2 := publishStatus env s1
  { s2 with nAlive := s2.nAlive + 1 }

/-- A world whose link is down at every poll and whose broker refuses every
handshake numbered below 3 and accepts the later ones. -/
def stubbornEnv : Env :=
  { calmEnv with
    wifiStatus := fun _ => false
    brokerConnect := fun k => if k < 3 then -2 else 0 }

/-- The booted device once its broker session has been lost. -/
def droppedDevice : Device := { bootedDevice with session := false }

/-- The device on which one iteration of `loop` evaluates its interval check:
the link and broker stages have run and the pending messages have been
handled. -/
def beforeStatusTimer (env : Env) (fuel : Nat) (s : Device) : Device :=
  let w := wifiConnected env s
  let s := if w.1 then w.2 else reconnectWiFi env w.2
  let c := mqttConnected env s
  let r := if c.1 then (c.2, true) else reconnectMQTT env fuel c.2
  mqttClientLoop env r.1

/-- A world like the calm one whose clock reads 29 s at its first reading. -/
def slowBootEnv : Env := { calmEnv with millis := fun k => 29000 + 1000 * k }

/-- The device as `setup` leaves it in the slow-boot world. -/
def slowBootDevice : Device := (setup slowBootEnv 2 (powerOn emptyPrefs)).1

/-- The status snapshot of the sample world at a given uptime in seconds. -/
def sampleStatus (uptime : Int) : JsonDoc :=
  [("device_id", JsonValue.str "ESP32_001"),
   ("mac_address", JsonValue.str "24:6F:28:00:00:01"),
   ("ip_address", JsonValue.str "192.168.1.50"),
   ("wifi_ssid", JsonValue.str "home"),
   ("rssi", JsonValue.num (-60)),
   ("firmware_version", JsonValue.str "1.0.0"),
   ("uptime", JsonValue.num uptime),
   ("free_heap", JsonValue.num 200000)]

/-- Whether a library call is a broker handshake. -/
def isHandshake : Event → Bool
  | Event.mqttConnect _ _ _ => true
  | _ => false

/-- Number of broker handshakes among a list of library calls. -/
def handshakes (es : List Event) : Nat := es.countP isHandshake

/-- One step of the check that subscriptions follow accepted handshakes. The
state is (the previous call was an accepted handshake, no violation so far). -/
def guardStep (st : Bool × Bool) : Event → Bool × Bool
  | Event.mqttSubscribe _ => (false, st.2 && st.1)
  | Event.mqttConnect _ _ ok => (ok, st.2)
  | _ => (false, st.2)

/-- The second list of library calls is the first one followed by calls that
cannot break the subscription check: run from any state of the check, they
leave its verdict as it was. -/
def Steady (before after : List Event) : Prop :=
  ∃ evs, after = before ++ evs ∧ ∀ st, (evs.foldl guardStep st).2 = st.2

/-- The device after one accepted round of `reconnectMQTT` (loop test,
handshake, subscription, status snapshot), before the next loop test. -/
def afterAcceptedRound (env : Env) (s : Device) : Device :=
  publishStatus env
    { s with
      session := true
      nAlive := s.nAlive + 1
      nConnect := s.nConnect + 1
      serial := s.serial ++
        ["Connecting to MQTT broker...", "Connected!\r\n",
         "Subscribed to: " ++ s.commandTopic ++ "\r\n"]
      events := s.events ++
        [Event.mqttConnect ("ESP32_" ++ DEVICE_ID) (brokerCredentials s) true,
         Event.mqttSubscribe s.commandTopic] }

/-- Library calls of a sequence of rounds of `reconnectMQTT`, one entry per
handshake: `none` for a refused handshake, followed by a wait of 5000 ms;
`some doc` for an accepted one, followed by the subscription of the command
channel and the publication of the status snapshot `doc`. -/
def roundsOf (credentials : Option (String × String)) (commandTopic statusTopic : String) :
    List (Option JsonDoc) → List Event
  | [] => []
  | none :: rest =>
    Event.mqttConnect ("ESP32_" ++ DEVICE_ID) credentials false :: Event.delay 5000
      :: roundsOf credentials commandTopic statusTopic rest
  | some doc :: rest =>
    Event.mqttConnect ("ESP32_" ++ DEVICE_ID) credentials true
      :: Event.mqttSubscribe commandTopic :: Event.mqttPublish statusTopic [doc]
      :: roundsOf credentials commandTopic statusTopic rest

/-- A world in which the link is down, the broker accepts every handshake and
the transport of the session is found closed at every loop test. -/
def closingEnv : Env :=
  { calmEnv with wifiStatus := fun _ => false, sessionAlive := fun _ => false }

theorem Color_eq (r g b : Nat) :
    Color r g b = (r % 256) * 65536 + (g % 256) * 256 + b % 256 := by
  unfold Color
  have hg : g % 256 < 256 := Nat.mod_lt _ (by decide)
  have hb : b % 256 < 2 ^ 8 := Nat.mod_lt _ (by decide)
  have h1 : 2 ^ 8 * (g % 256) < 2 ^ 16 := by omega
  rw [Nat.shiftLeft_eq, Nat.shiftLeft_eq, Nat.mul_comm (r % 256), Nat.mul_comm (g % 256),
    ← Nat.mul_add_lt_is_or h1]
  have h2 : 2 ^ 16 * (r % 256) + 2 ^ 8 * (g % 256) = 2 ^ 8 * (2 ^ 8 * (r % 256) + g % 256) := by
    omega
  rw [h2, ← Nat.mul_add_lt_is_or hb]

theorem hexVal_hexDigit (upper : Bool) (d : Nat) (h : d < 16) :
    hexVal (hexDigit upper d) = some d := by
  interval_cases d <;> cases upper <;> rfl

theorem hexDigit_plain (upper : Bool) (d : Nat) (h : d < 16) :
    isSpace (hexDigit upper d) = false ∧ hexDigit upper d ≠ '-' ∧ hexDigit upper d ≠ '+'
      ∧ hexDigit upper d ≠ '#' ∧ hexDigit upper d ≠ 'x' ∧ hexDigit upper d ≠ 'X' := by
  interval_cases d <;> cases upper <;> decide

theorem strtolSign_plain (c : Char) (cs : List Char) (h1 : c ≠ '-') (h2 : c ≠ '+') :
    strtolSign (c :: cs) = (false, c :: cs) := by
  unfold strtolSign
  split
  · rename_i heq; simp at heq; exact absurd heq.1 h1
  · rename_i heq; simp at heq; exact absurd heq.1 h2
  · rfl

theorem strtolSkip0x_plain (c d : Char) (cs : List Char) (h1 : d ≠ 'x') (h2 : d ≠ 'X') :
    strtolSkip0x (c :: d :: cs) = c :: d :: cs := by
  unfold strtolSkip0x
  split
  · rename_i heq; simp at heq; exact absurd heq.2.1 h1
  · rename_i heq; simp at heq; exact absurd heq.2.1 h2
  · rfl

theorem strtol16_colorToHex (upper : Bool) (v : Nat) (hv : v < 2 ^ 24) :
    strtol16 (colorToHex upper v).data = (v : Int) := by
  have d5 : v / 1048576 % 16 < 16 := Nat.mod_lt _ (by decide)
  have d4 : v / 65536 % 16 < 16 := Nat.mod_lt _ (by decide)
  have d3 : v / 4096 % 16 < 16 := Nat.mod_lt _ (by decide)
  have d2 : v / 256 % 16 < 16 := Nat.mod_lt _ (by decide)
  have d1 : v / 16 % 16 < 16 := Nat.mod_lt _ (by decide)
  have d0 : v % 16 < 16 := Nat.mod_lt _ (by decide)
  have p5 := hexDigit_plain upper _ d5
  have p4 := hexDigit_plain upper _ d4
  unfold strtol16 colorToHex
  simp only [List.dropWhile_cons, p5.1, Bool.false_eq_true, if_false,
    strtolSign_plain _ _ p5.2.1 p5.2.2.1, strtolSkip0x_plain _ _ _ p4.2.2.2.2.1 p4.2.2.2.2.2,
    strtolDigits, hexVal_hexDigit _ _ d5, hexVal_hexDigit _ _ d4, hexVal_hexDigit _ _ d3,
    hexVal_hexDigit _ _ d2, hexVal_hexDigit _ _ d1, hexVal_hexDigit _ _ d0]
  have hsum : ((((((0 * 16 + v / 1048576 % 16) * 16 + v / 65536 % 16) * 16 + v / 4096 % 16) * 16
      + v / 256 % 16) * 16 + v / 16 % 16) * 16 + v % 16) = v := by
    have : (2:Nat) ^ 24 = 16777216 := by norm_num
    omega
  rw [hsum]
  have : (2:Nat) ^ 24 = 16777216 := by norm_num
  simp only [LONG_MAX]
  omega

theorem hexToColor_of_strtol (hex : String) (cs : List Char) (v : Nat) (hv : v < 2 ^ 24)
    (hcs : (match hex.data with | '#' :: rest => rest | l => l) = cs)
    (hs : strtol16 cs = (v : Int)) : hexToColor hex = v := by
  unfold hexToColor
  simp only [hcs, hs, Color_eq]
  have : (2:Nat) ^ 24 = 16777216 := by norm_num
  omega

theorem and_255 (x : Nat) : x &&& 255 = x % 256 := Nat.and_pow_two_sub_one_eq_mod x 8

theorem channels_Color (r g b : Nat) :
    redOf (Color r g b) = r % 256 ∧ greenOf (Color r g b) = g % 256
      ∧ blueOf (Color r g b) = b % 256 := by
  simp only [redOf, greenOf, blueOf, Color_eq, and_255, Nat.shiftRight_eq_div_pow]
  refine ⟨?_, ?_, ?_⟩ <;> omega

theorem setPixelColor_eq (n : Int) (c : Nat) (s : Device) (h0 : 0 ≤ n) (h1 : n < 24) :
    setPixelColor n c s =
      { s with pixels := fun i => if i.val = n.toNat then c else s.pixels i } := by
  have hk : (n % 65536).toNat = n.toNat := by omega
  have hlt : (n % 65536).toNat < 24 := by omega
  unfold setPixelColor
  simp only [hlt, dite_true]
  congr 1
  funext i
  simp only [Function.update_apply, hk]
  congr 1
  simp [Fin.ext_iff]

theorem setCompartmentColor_eq (c : Int) (color brightness : Nat) (s : Device)
    (h0 : 0 ≤ c) (h1 : c < 6) :
    setCompartmentColor c color brightness s =
      { s with
        pixels := fun i =>
          if 3 * c.toNat ≤ i.val ∧ i.val ≤ 3 * c.toNat + 2 then adjusted color brightness
          else s.pixels i
        events := s.events ++ [Event.stripShow] } := by
  unfold setCompartmentColor
  simp only []
  rw [setPixelColor_eq _ _ _ (by omega) (by omega), setPixelColor_eq _ _ _ (by omega) (by omega),
    setPixelColor_eq _ _ _ (by omega) (by omega)]
  simp only [emit, adjusted]
  congr 1
  funext i
  have e0 : (c * 3 + 0).toNat = 3 * c.toNat := by omega
  have e1 : (c * 3 + 1).toNat = 3 * c.toNat + 1 := by omega
  have e2 : (c * 3 + 2).toNat = 3 * c.toNat + 2 := by omega
  simp only [e0, e1, e2]
  by_cases a0 : i.val = 3 * c.toNat
  · simp [a0]
  · by_cases a1 : i.val = 3 * c.toNat + 1
    · simp [a1]
    · by_cases a2 : i.val = 3 * c.toNat + 2
      · simp [a2]
      · have : ¬ (3 * c.toNat ≤ i.val ∧ i.val ≤ 3 * c.toNat + 2) := by omega
        simp [a0, a1, a2, this]

theorem handleLEDControl_rejected (c : Int) (color : String) (b : Int) (s : Device)
    (h : c < 0 ∨ c ≥ 6) :
    handleLEDControl c color b s =
      { s with serial := s.serial ++ ledBanner c color b ++ ["Invalid compartment number\r\n"] } := by
  unfold handleLEDControl
  simp [h, Serial_println, Serial_print, ledBanner]

theorem handleLEDControl_accepted (c : Int) (color : String) (b : Int) (s : Device)
    (h0 : 0 ≤ c) (h1 : c < 6) :
    handleLEDControl c color b s =
      { s with
        serial := s.serial ++ ledBanner c color b
        pixels := fun i =>
          if 3 * c.toNat ≤ i.val ∧ i.val ≤ 3 * c.toNat + 2 then
            adjusted (hexToColor color) (b % 256).toNat
          else s.pixels i
        events := s.events ++ [Event.stripShow, Event.mqttPublish s.responseTopic [ledAck c]]
        compartments := Function.update s.compartments ⟨c.toNat, by omega⟩
          { color := hexToColor color, brightness := (b % 256).toNat } } := by
  have h : ¬ (c < 0 ∨ c ≥ 6) := by omega
  unfold handleLEDControl
  simp only [h, dite_false]
  rw [setCompartmentColor_eq _ _ _ _ h0 h1]
  simp [Serial_println, Serial_print, ledBanner, mqttPublish, serializeJson, emit, ledAck]

theorem scale_small (ch b : Nat) (hch : ch < 256) (hb : b ≤ 100) :
    ch * b / 100 % 256 = ch * b / 100 ∧ ch * b / 100 ≤ 255 := by
  have h1 : ch * b ≤ 255 * 100 := Nat.mul_le_mul (by omega) hb
  have h2 : ch * b / 100 ≤ 255 := by omega
  exact ⟨Nat.mod_eq_of_lt (by omega), h2⟩

theorem adjusted_small (color b : Nat) (hb : b ≤ 100) :
    adjusted color b
        = Color (redOf color * b / 100) (greenOf color * b / 100) (blueOf color * b / 100)
      ∧ redOf (adjusted color b) = redOf color * b / 100
      ∧ greenOf (adjusted color b) = greenOf color * b / 100
      ∧ blueOf (adjusted color b) = blueOf color * b / 100 := by
  have hr : redOf color < 256 := by
    simp only [redOf, and_255]; omega
  have hg : greenOf color < 256 := by
    simp only [greenOf, and_255]; omega
  have hbl : blueOf color < 256 := by
    simp only [blueOf, and_255]; omega
  have e : adjusted color b
      = Color (redOf color * b / 100) (greenOf color * b / 100) (blueOf color * b / 100) := by
    simp only [adjusted, redOf, greenOf, blueOf, Color, Nat.mod_mod]
  have c := channels_Color (redOf color * b / 100) (greenOf color * b / 100)
    (blueOf color * b / 100)
  rw [(scale_small _ b hr hb).1, (scale_small _ b hg hb).1, (scale_small _ b hbl hb).1] at c
  rw [e]
  exact ⟨rfl, c⟩

theorem mqttCallback_led_control (env : Env) (topic : String) (m : Decoded) (s : Device)
    (hcmd : m.command = "led_control") :
    mqttCallback env topic (Except.ok m) s =
      handleLEDControl (m.paramInt "compartment") (m.paramStr "color") (m.paramInt "brightness")
        { s with serial := s.serial ++
            ["\n=== MQTT Message Received ===\r\n", "Topic: ", topic ++ "\r\n", "Command: ",
             "led_control\r\n"] } := by
  unfold mqttCallback
  simp [hcmd, Serial_println, Serial_print]

theorem afterFailedRounds_zero (env : Env) (s : Device) (hs : s.session = false) :
    afterFailedRounds env 0 s = s := by
  cases s
  simp_all [afterFailedRounds, failedLines, failedRounds]

theorem reconnectMQTT_fail_round (env : Env) (fuel : Nat) (s : Device)
    (hs : s.session = false) (hrc : env.brokerConnect s.nConnect ≠ 0) :
    reconnectMQTT env (fuel + 1) s = reconnectMQTT env fuel (afterFailedRounds env 1 s) := by
  conv_lhs => unfold reconnectMQTT
  simp [mqttConnected, mqttConnect, hs, hrc, Serial_print, Serial_println, delay, emit,
    afterFailedRounds, failedLines, failedRounds, brokerCredentials]

theorem afterFailedRounds_succ (env : Env) (k : Nat) (s : Device) :
    afterFailedRounds env k (afterFailedRounds env 1 s) = afterFailedRounds env (k + 1) s := by
  simp [afterFailedRounds, failedLines, failedRounds, brokerCredentials]
  refine ⟨by omega, by omega⟩

theorem reconnectMQTT_exit (env : Env) (fuel : Nat) (s : Device)
    (hs : s.session = true) (halive : env.sessionAlive s.nAlive = true) :
    reconnectMQTT env (fuel + 1) s = ({ s with nAlive := s.nAlive + 1 }, true) := by
  unfold reconnectMQTT
  cases s
  simp_all [mqttConnected]

theorem reconnectMQTT_success_round (env : Env) (fuel : Nat) (s : Device)
    (hs : s.session = false) (hrc : env.brokerConnect s.nConnect = 0)
    (halive : env.sessionAlive (s.nAlive + 1) = true) :
    reconnectMQTT env (fuel + 2) s = (afterHandshake env s, true) := by
  conv_lhs => unfold reconnectMQTT
  simp only [mqttConnected, hs, Bool.false_and, Bool.false_eq_true, if_false, mqttConnect, hrc,
    decide_True, if_true]
  simp only [Serial_print, hrc, decide_True, if_true]
  rw [reconnectMQTT_exit env fuel _ (by simp [publishStatus, millis, mqttPublish, serializeJson,
    Serial_println, emit]) (by simpa [publishStatus, millis, mqttPublish, serializeJson,
    Serial_println, emit] using halive)]
  simp [publishStatus, millis, mqttPublish, serializeJson, Serial_println, emit,
    afterHandshake, brokerCredentials]

theorem reconnectMQTT_all_refused (env : Env) (fuel : Nat) :
    ∀ s : Device, s.session = false →
      (∀ j, j < fuel → env.brokerConnect (s.nConnect + j) ≠ 0) →
      reconnectMQTT env fuel s = (afterFailedRounds env fuel s, false) := by
  induction fuel with
  | zero =>
    intro s hs _
    rw [afterFailedRounds_zero env s hs]
    rfl
  | succ n ih =>
    intro s hs hall
    have h0 : env.brokerConnect s.nConnect ≠ 0 := by
      have := hall 0 (by omega)
      simpa using this
    rw [reconnectMQTT_fail_round env n s hs h0, ih (afterFailedRounds env 1 s) rfl ?_,
      afterFailedRounds_succ]
    intro j hj
    have := hall (j + 1) (by omega)
    simpa [afterFailedRounds, Nat.add_assoc, Nat.add_comm 1 j] using this

theorem reconnectMQTT_accepted_after (env : Env) (k fuel : Nat) :
    ∀ s : Device, s.session = false →
      (∀ j, j < k → env.brokerConnect (s.nConnect + j) ≠ 0) →
      env.brokerConnect (s.nConnect + k) = 0 →
      env.sessionAlive (s.nAlive + k + 1) = true →
      reconnectMQTT env (fuel + k + 2) s
        = (afterHandshake env (afterFailedRounds env k s), true) := by
  induction k with
  | zero =>
    intro s hs _ hok halive
    rw [afterFailedRounds_zero env s hs]
    exact reconnectMQTT_success_round env fuel s hs (by simpa using hok) (by simpa using halive)
  | succ n ih =>
    intro s hs hall hok halive
    have h0 : env.brokerConnect s.nConnect ≠ 0 := by
      have := hall 0 (by omega)
      simpa using this
    have e : fuel + (n + 1) + 2 = (fuel + n + 2) + 1 := by omega
    rw [e, reconnectMQTT_fail_round env _ s hs h0, ih (afterFailedRounds env 1 s) rfl ?_ ?_ ?_,
      afterFailedRounds_succ]
    · intro j hj
      have := hall (j + 1) (by omega)
      simpa [afterFailedRounds, Nat.add_assoc, Nat.add_comm 1 j] using this
    · simpa [afterFailedRounds, Nat.add_assoc, Nat.add_comm 1 n] using hok
    · simpa [afterFailedRounds, Nat.add_assoc, Nat.add_comm 1 n] using halive

theorem reconnectMQTT_returns_connected (env : Env) (fuel : Nat) :
    ∀ s : Device, (reconnectMQTT env fuel s).2 = true →
      (reconnectMQTT env fuel s).1.session = true := by
  induction fuel with
  | zero => intro s h; simp [reconnectMQTT] at h
  | succ n ih =>
    intro s h
    unfold reconnectMQTT at h ⊢
    simp only [] at h ⊢
    split_ifs at h ⊢ with h1 h2
    · simpa [mqttConnected] using h1
    · exact ih _ h
    · exact ih _ h

/-! ### The interval stamp is touched by the interval check only -/

theorem setPixelColor_stamp (n : Int) (c : Nat) (s : Device) :
    (setPixelColor n c s).lastStatusUpdate = s.lastStatusUpdate := by
  unfold setPixelColor
  simp only []
  split_ifs <;> rfl

theorem handleLEDControl_stamp (c : Int) (color : String) (b : Int) (s : Device) :
    (handleLEDControl c color b s).lastStatusUpdate = s.lastStatusUpdate := by
  unfold handleLEDControl
  split_ifs <;>
    simp [setCompartmentColor, setPixelColor_stamp, Serial_println, Serial_print, mqttPublish, serializeJson,
      emit]

theorem handleOTAUpdate_stamp (env : Env) (url version : String) (s : Device) :
    (handleOTAUpdate env url version s).lastStatusUpdate = s.lastStatusUpdate := by
  unfold handleOTAUpdate
  simp only []
  split_ifs <;> simp [Serial_println, mqttPublish, serializeJson, emit, delay, restart]

theorem publishStatus_stamp (env : Env) (s : Device) :
    (publishStatus env s).lastStatusUpdate = s.lastStatusUpdate := by
  simp [publishStatus, millis, Serial_println, mqttPublish, serializeJson, emit]

theorem mqttCallback_stamp (env : Env) (topic : String) (doc : Except String Decoded)
    (s : Device) :
    (mqttCallback env topic doc s).lastStatusUpdate = s.lastStatusUpdate := by
  unfold mqttCallback
  cases doc with
  | error e => simp [Serial_println, Serial_print]
  | ok m =>
    simp only []
    split_ifs <;>
      simp [handleReboot, handleWiFiChange, saveConfig, handleOTAUpdate_stamp,
        handleLEDControl_stamp, publishStatus_stamp, Serial_println, Serial_print, mqttPublish, serializeJson,
        emit, delay, restart]

theorem deliver_stamp (env : Env) (ms : List Inbound) :
    ∀ s : Device, (deliver env ms s).lastStatusUpdate = s.lastStatusUpdate := by
  induction ms with
  | nil => intro s; rfl
  | cons m ms ih =>
    intro s
    unfold deliver
    simp only []
    split_ifs
    · exact mqttCallback_stamp env _ _ s
    · rw [ih, mqttCallback_stamp]

theorem joinLoop_stamp (env : Env) (n : Nat) :
    ∀ s : Device, (joinLoop env n s).lastStatusUpdate = s.lastStatusUpdate := by
  induction n with
  | zero => intro s; simp [joinLoop, wifiConnected]
  | succ n ih =>
    intro s
    unfold joinLoop
    simp only []
    split_ifs
    · simp [wifiConnected]
    · rw [ih]
      simp [wifiConnected, Serial_print, delay, emit]

theorem setupWiFi_stamp (env : Env) (s : Device) :
    (setupWiFi env s).lastStatusUpdate = s.lastStatusUpdate := by
  unfold setupWiFi
  simp only []
  split_ifs <;>
    simp [wifiConnected, joinLoop_stamp, Serial_println, Serial_print, emit]

theorem reconnectMQTT_stamp (env : Env) (fuel : Nat) :
    ∀ s : Device, (reconnectMQTT env fuel s).1.lastStatusUpdate = s.lastStatusUpdate := by
  induction fuel with
  | zero => intro s; rfl
  | succ n ih =>
    intro s
    unfold reconnectMQTT
    simp only []
    split_ifs
    · simp [mqttConnected]
    · rw [ih, publishStatus_stamp]
      simp [mqttConnect, mqttConnected, Serial_println, Serial_print, emit]
    · rw [ih]
      simp [mqttConnect, mqttConnected, Serial_println, Serial_print, emit, delay]

theorem setupMQTT_stamp (env : Env) (fuel : Nat) (s : Device) :
    (setupMQTT env fuel s).1.lastStatusUpdate = s.lastStatusUpdate := by
  unfold setupMQTT
  simp only []
  rw [reconnectMQTT_stamp]
  split_ifs <;> simp [Serial_println, emit]

theorem setup_stamp (env : Env) (fuel : Nat) (s : Device) :
    (setup env fuel s).1.lastStatusUpdate = s.lastStatusUpdate := by
  unfold setup
  simp only []
  split_ifs <;>
    simp [publishStatus_stamp, setupMQTT_stamp, setupWiFi_stamp, loadConfig, Serial_println, emit]

theorem beforeStatusTimer_stamp (env : Env) (fuel : Nat) (s : Device) :
    (beforeStatusTimer env fuel s).lastStatusUpdate = s.lastStatusUpdate := by
  unfold beforeStatusTimer mqttClientLoop
  simp only []
  rw [deliver_stamp]
  simp only []
  split_ifs <;>
    simp [reconnectMQTT_stamp, mqttConnected, reconnectWiFi, setupWiFi_stamp, wifiConnected,
      Serial_println, emit, delay]

theorem loop_eq_statusTimer (env : Env) (fuel : Nat) (s : Device)
    (hret : (loop env fuel s).2 = true) (hrun : (loop env fuel s).1.restarted = false) :
    (loop env fuel s).1 = statusTimer env (beforeStatusTimer env fuel s) := by
  unfold loop at hret hrun ⊢
  unfold beforeStatusTimer
  simp only [] at hret hrun ⊢
  split_ifs at hret hrun ⊢ <;> simp_all

theorem statusTimer_fires (env : Env) (s : Device)
    (h : (env.millis s.nMillis % 2 ^ 32 + 2 ^ 32 - s.lastStatusUpdate) % 2 ^ 32 > 30000) :
    (∃ doc, (statusTimer env s).events = s.events ++ [Event.mqttPublish s.statusTopic [doc]])
      ∧ (statusTimer env s).lastStatusUpdate = env.millis (s.nMillis + 2) % 2 ^ 32 := by
  unfold statusTimer
  simp only [millis, h, if_true]
  simp [publishStatus, millis, Serial_println, mqttPublish, serializeJson, emit]

theorem statusTimer_idle (env : Env) (s : Device)
    (h : ¬ (env.millis s.nMillis % 2 ^ 32 + 2 ^ 32 - s.lastStatusUpdate) % 2 ^ 32 > 30000) :
    statusTimer env s = { s with nMillis := s.nMillis + 1 } := by
  unfold statusTimer
  simp only [millis, h, if_false]

/-! ### Which library calls each function adds -/

theorem Steady.trans {a b c : List Event} (h1 : Steady a b) (h2 : Steady b c) : Steady a c := by
  obtain ⟨x, hx, px⟩ := h1
  obtain ⟨y, hy, py⟩ := h2
  refine ⟨x ++ y, by rw [hy, hx, List.append_assoc], fun st => ?_⟩
  rw [List.foldl_append, py, px]

theorem publishStatus_events (env : Env) (s : Device) :
    ∃ doc, (publishStatus env s).events = s.events ++ [Event.mqttPublish s.statusTopic [doc]] :=
  ⟨_, rfl⟩

theorem reconnectMQTT_step_exit (env : Env) (fuel : Nat) (s : Device)
    (hup : (s.session && env.sessionAlive s.nAlive) = true) :
    reconnectMQTT env (fuel + 1) s = ({ s with session := true, nAlive := s.nAlive + 1 }, true) := by
  unfold reconnectMQTT
  simp [mqttConnected, hup]

theorem reconnectMQTT_step_refused (env : Env) (fuel : Nat) (s : Device)
    (hup : (s.session && env.sessionAlive s.nAlive) = false)
    (hrc : env.brokerConnect s.nConnect ≠ 0) :
    reconnectMQTT env (fuel + 1) s = reconnectMQTT env fuel (afterFailedRounds env 1 s) := by
  conv_lhs => unfold reconnectMQTT
  simp [mqttConnected, mqttConnect, hup, hrc, Serial_print, Serial_println, delay, emit,
    afterFailedRounds, failedLines, failedRounds, brokerCredentials]

theorem reconnectMQTT_step_accepted (env : Env) (fuel : Nat) (s : Device)
    (hup : (s.session && env.sessionAlive s.nAlive) = false)
    (hrc : env.brokerConnect s.nConnect = 0) :
    reconnectMQTT env (fuel + 1) s = reconnectMQTT env fuel (afterAcceptedRound env s) := by
  conv_lhs => unfold reconnectMQTT
  simp [mqttConnected, mqttConnect, hup, hrc, Serial_print, Serial_println, emit,
    afterAcceptedRound, brokerCredentials]

theorem afterAcceptedRound_events (env : Env) (s : Device) :
    ∃ doc, (afterAcceptedRound env s).events = s.events ++
      [Event.mqttConnect ("ESP32_" ++ DEVICE_ID) (brokerCredentials s) true,
       Event.mqttSubscribe s.commandTopic, Event.mqttPublish s.statusTopic [doc]] := by
  obtain ⟨doc, hd⟩ := publishStatus_events env
    { s with
      session := true
      nAlive := s.nAlive + 1
      nConnect := s.nConnect + 1
      serial := s.serial ++
        ["Connecting to MQTT broker...", "Connected!\r\n",
         "Subscribed to: " ++ s.commandTopic ++ "\r\n"]
      events := s.events ++
        [Event.mqttConnect ("ESP32_" ++ DEVICE_ID) (brokerCredentials s) true,
         Event.mqttSubscribe s.commandTopic] }
  refine ⟨doc, ?_⟩
  unfold afterAcceptedRound
  rw [hd]
  simp only [List.append_assoc, List.cons_append, List.nil_append]

theorem reconnectMQTT_nWifi (env : Env) (fuel : Nat) :
    ∀ s : Device, (reconnectMQTT env fuel s).1.nWifi = s.nWifi := by
  induction fuel with
  | zero => intro s; rfl
  | succ n ih =>
    intro s
    by_cases hup : (s.session && env.sessionAlive s.nAlive) = true
    · rw [reconnectMQTT_step_exit env n s hup]
    · have hup : (s.session && env.sessionAlive s.nAlive) = false := by simpa using hup
      by_cases hrc : env.brokerConnect s.nConnect = 0
      · rw [reconnectMQTT_step_accepted env n s hup hrc, ih]
        simp [afterAcceptedRound, publishStatus, millis, mqttPublish, Serial_println, emit]
      · rw [reconnectMQTT_step_refused env n s hup hrc, ih]
        rfl

theorem reconnectMQTT_rounds (env : Env) (fuel : Nat) :
    ∀ s : Device, ∃ outcomes : List (Option JsonDoc),
      (reconnectMQTT env fuel s).1.events
          = s.events ++ roundsOf (brokerCredentials s) s.commandTopic s.statusTopic outcomes
        ∧ ((reconnectMQTT env fuel s).2 = true →
            (outcomes = [] ∧ (s.session && env.sessionAlive s.nAlive) = true)
              ∨ ∃ init doc, outcomes = init ++ [some doc]) := by
  induction fuel with
  | zero => intro s; exact ⟨[], by simp [reconnectMQTT, roundsOf], by simp [reconnectMQTT]⟩
  | succ n ih =>
    intro s
    by_cases hup : (s.session && env.sessionAlive s.nAlive) = true
    · rw [reconnectMQTT_step_exit env n s hup]
      exact ⟨[], by simp [roundsOf], fun _ => Or.inl ⟨rfl, hup⟩⟩
    · have hup : (s.session && env.sessionAlive s.nAlive) = false := by simpa using hup
      by_cases hrc : env.brokerConnect s.nConnect = 0
      · rw [reconnectMQTT_step_accepted env n s hup hrc]
        obtain ⟨doc, hd⟩ := afterAcceptedRound_events env s
        obtain ⟨outcomes, he, hr⟩ := ih (afterAcceptedRound env s)
        have hc : brokerCredentials (afterAcceptedRound env s) = brokerCredentials s := rfl
        have h1 : (afterAcceptedRound env s).commandTopic = s.commandTopic := rfl
        have h2 : (afterAcceptedRound env s).statusTopic = s.statusTopic := rfl
        rw [hc, h1, h2, hd] at he
        refine ⟨some doc :: outcomes, ?_, ?_⟩
        · rw [he]; simp [roundsOf]
        · intro hret
          rcases hr hret with ⟨h0, _⟩ | ⟨init, d, hi⟩
          · exact Or.inr ⟨[], doc, by simp [h0]⟩
          · exact Or.inr ⟨some doc :: init, d, by simp [hi]⟩
      · rw [reconnectMQTT_step_refused env n s hup hrc]
        obtain ⟨outcomes, he, hr⟩ := ih (afterFailedRounds env 1 s)
        have hc : brokerCredentials (afterFailedRounds env 1 s) = brokerCredentials s := rfl
        have h1 : (afterFailedRounds env 1 s).commandTopic = s.commandTopic := rfl
        have h2 : (afterFailedRounds env 1 s).statusTopic = s.statusTopic := rfl
        have h3 : (afterFailedRounds env 1 s).events = s.events ++
            [Event.mqttConnect ("ESP32_" ++ DEVICE_ID) (brokerCredentials s) false,
             Event.delay 5000] := rfl
        rw [hc, h1, h2, h3] at he
        refine ⟨none :: outcomes, ?_, ?_⟩
        · rw [he]; simp [roundsOf]
        · intro hret
          rcases hr hret with ⟨_, h0⟩ | ⟨init, d, hi⟩
          · simp [afterFailedRounds] at h0
          · exact Or.inr ⟨none :: init, d, by simp [hi]⟩

theorem reconnectMQTT_closed (env : Env) (fuel : Nat) :
    ∀ s : Device, (∀ j, j < fuel → env.sessionAlive (s.nAlive + j) = false) →
      (reconnectMQTT env fuel s).2 = false := by
  induction fuel with
  | zero => intro s _; rfl
  | succ n ih =>
    intro s hall
    have h0 : env.sessionAlive s.nAlive = false := by simpa using hall 0 (by omega)
    have hup : (s.session && env.sessionAlive s.nAlive) = false := by simp [h0]
    by_cases hrc : env.brokerConnect s.nConnect = 0
    · rw [reconnectMQTT_step_accepted env n s hup hrc]
      apply ih
      intro j hj
      have := hall (j + 1) (by omega)
      simpa [afterAcceptedRound, publishStatus, millis, mqttPublish, Serial_println, emit,
        Nat.add_assoc, Nat.add_comm 1 j] using this
    · rw [reconnectMQTT_step_refused env n s hup hrc]
      apply ih
      intro j hj
      have := hall (j + 1) (by omega)
      simpa [afterFailedRounds, Nat.add_assoc, Nat.add_comm 1 j] using this

theorem failedRounds_eq_roundsOf (credentials : Option (String × String))
    (commandTopic statusTopic : String) (k : Nat) :
    failedRounds credentials k
      = roundsOf credentials commandTopic statusTopic (List.replicate k none) := by
  induction k with
  | zero => rfl
  | succ n ih => simp [failedRounds, roundsOf, List.replicate, ih]

/-! ### The link stage leaves the broker client alone -/

theorem handleOTAUpdate_outcome (env : Env) (url version : String) (s : Device) :
    publishedOn s.responseTopic (callsSince s (handleOTAUpdate env url version s))
        = [[response "starting" "OTA update initiated"],
           [response "starting" "OTA update initiated",
            otaVerdict (env.ota s.nOta).httpCode (env.ota s.nOta).canBegin
              (env.ota s.nOta).endOk (env.ota s.nOta).isFinished]]
      ∧ (handleOTAUpdate env url version s).restarted
          = (s.restarted || otaRestarts (env.ota s.nOta).httpCode (env.ota s.nOta).canBegin
              (env.ota s.nOta).endOk (env.ota s.nOta).isFinished)
      ∧ ((env.ota s.nOta).httpCode ≠ 200 →
          (callsSince s (handleOTAUpdate env url version s)).all (fun e => !isFlashCall e) = true)
      ∧ (otaRestarts (env.ota s.nOta).httpCode (env.ota s.nOta).canBegin
              (env.ota s.nOta).endOk (env.ota s.nOta).isFinished = true →
          callsSince s (handleOTAUpdate env url version s) =
            [Event.mqttPublish s.responseTopic [response "starting" "OTA update initiated"],
             Event.httpBegin url, Event.httpGet 200,
             Event.updateBegin ((env.ota s.nOta).contentLength % 2 ^ 32).toNat true,
             Event.updateWriteStream (env.ota s.nOta).written, Event.updateEnd true,
             Event.mqttPublish s.responseTopic
               [response "starting" "OTA update initiated",
                response "success" "Update complete, rebooting"],
             Event.delay 1000, Event.restart]) := by
  simp only [handleOTAUpdate]
  generalize env.ota s.nOta = o
  obtain ⟨code, len, canBegin, written, endOk, err, fin⟩ := o
  split_ifs <;>
    simp_all [HTTP_CODE_OK, callsSince, publishedOn, otaVerdict, otaRestarts, isFlashCall,
      mqttPublish, serializeJson, emit, delay, restart, Serial_println]

/-! # Properties of the specification -/

/-! ## Hex decoding -/

/-- C6. For every 24-bit value `v`, `hexToColor` applied to the six-digit
formatting of `v` (in either letter case) returns `v`, with and without a
leading `#`, and the result carries the first digit pair in bits 16-23, the
second in bits 8-15 and the third in bits 0-7. -/
theorem hexToColor_colorToHex (upper : Bool) (v : Nat) (hv : v < 2 ^ 24) :
    hexToColor (colorToHex upper v) = v
      ∧ hexToColor ("#" ++ colorToHex upper v) = v
      ∧ redOf (hexToColor (colorToHex upper v)) = v / 65536
      ∧ greenOf (hexToColor (colorToHex upper v)) = v / 256 % 256
      ∧ blueOf (hexToColor (colorToHex upper v)) = v % 256 := by
  have p5 := hexDigit_plain upper _ (Nat.mod_lt (v / 1048576) (by decide : 16 > 0))
  have e1 : hexToColor (colorToHex upper v) = v := by
    apply hexToColor_of_strtol _ (colorToHex upper v).data v hv _ (strtol16_colorToHex upper v hv)
    simp only [colorToHex]
    split
    · rename_i heq; simp at heq; exact absurd heq.1 p5.2.2.2.1
    · rfl
  have e2 : hexToColor ("#" ++ colorToHex upper v) = v := by
    apply hexToColor_of_strtol _ (colorToHex upper v).data v hv _ (strtol16_colorToHex upper v hv)
    rfl
  have hp : (2:Nat) ^ 24 = 16777216 := by norm_num
  refine ⟨e1, e2, ?_, ?_, ?_⟩
  · rw [e1]; simp only [redOf, and_255, Nat.shiftRight_eq_div_pow]; omega
  · rw [e1]; simp only [greenOf, and_255, Nat.shiftRight_eq_div_pow]
  · rw [e1]; simp only [blueOf, and_255]

/-- C6 at the value `0x00FF00`, whose formatting is `00FF00`. -/
theorem hexToColor_colorToHex_green :
    colorToHex true 0x00FF00 = "00FF00"
      ∧ (hexToColor (colorToHex true 0x00FF00) = 0x00FF00
        ∧ hexToColor ("#" ++ colorToHex true 0x00FF00) = 0x00FF00
        ∧ redOf (hexToColor (colorToHex true 0x00FF00)) = 0x00FF00 / 65536
        ∧ greenOf (hexToColor (colorToHex true 0x00FF00)) = 0x00FF00 / 256 % 256
        ∧ blueOf (hexToColor (colorToHex true 0x00FF00)) = 0x00FF00 % 256) :=
  ⟨by decide, hexToColor_colorToHex true 0x00FF00 (by decide)⟩

/-! ## Compartment lighting -/

/-- C1 as stated fails: a requested brightness of 300 on compartment 0 is
stored as 44, because the stored field is a `uint8_t`. -/
theorem handleLEDControl_brightness_300 :
    ((handleLEDControl 0 "#FF0000" 300 bootedDevice).compartments 0).brightness = 44
      ∧ (((handleLEDControl 0 "#FF0000" 300 bootedDevice).compartments 0).brightness : Int)
          ≠ 300 := by
  decide

/-- C1, amended. For a compartment index `0 ≤ c ≤ 5`, any colour string and
any integer brightness, after `handleLEDControl` the entry `compartments[c]`
holds the decoded colour (a 24-bit value) and the requested brightness reduced
modulo 256, which is the requested brightness itself when that lies in 0..255.
The entry does not depend on the prior state, and applying the command twice
leaves the same compartments array as applying it once. -/
theorem handleLEDControl_stores (c : Int) (color : String) (brightness : Int)
    (s t : Device) (h0 : 0 ≤ c) (h5 : c ≤ 5) :
    (handleLEDControl c color brightness s).compartments ⟨c.toNat, by omega⟩
        = { color := hexToColor color, brightness := (brightness % 256).toNat }
      ∧ hexToColor color < 2 ^ 24
      ∧ (0 ≤ brightness → brightness ≤ 255 →
          (((handleLEDControl c color brightness s).compartments ⟨c.toNat, by omega⟩).brightness
            : Int) = brightness)
      ∧ (handleLEDControl c color brightness s).compartments ⟨c.toNat, by omega⟩
          = (handleLEDControl c color brightness t).compartments ⟨c.toNat, by omega⟩
      ∧ (handleLEDControl c color brightness
            (handleLEDControl c color brightness s)).compartments
          = (handleLEDControl c color brightness s).compartments := by
  have h6 : c < 6 := by omega
  have hs := handleLEDControl_accepted c color brightness s h0 h6
  have ht := handleLEDControl_accepted c color brightness t h0 h6
  have hss := handleLEDControl_accepted c color brightness
    (handleLEDControl c color brightness s) h0 h6
  refine ⟨?_, ?_, ?_, ?_, ?_⟩
  · rw [hs]; simp
  · unfold hexToColor
    simp only [Color_eq]
    have : (2:Nat) ^ 24 = 16777216 := by norm_num
    omega
  · intro hb0 hb1
    rw [hs]; simp only [Function.update_same]
    omega
  · rw [hs, ht]; simp
  · rw [hss]
    simp only [Function.update_eq_self_iff]
    rw [hs]; simp

/-- C1 amended, at compartment 2 with colour `#00FF00` and brightness 50. -/
theorem handleLEDControl_stores_green :
    (0 : Int) ≤ 2 ∧ (2 : Int) ≤ 5
      ∧ (handleLEDControl 2 "#00FF00" 50 bootedDevice).compartments 2
          = { color := 0x00FF00, brightness := 50 } :=
  ⟨by decide, by decide,
    (handleLEDControl_stores 2 "#00FF00" 50 bootedDevice bootedDevice
      (by decide) (by decide)).1.trans (by decide)⟩

/-- C2 as stated fails: index 5 lies outside `[0,5)` and is accepted; the
command changes compartment 5, LED 15 and publishes an acknowledgment. -/
theorem handleLEDControl_index_5 :
    ((5 : Int) < 0 ∨ (5 : Int) ≥ 5)
      ∧ (handleLEDControl 5 "#FF0000" 50 bootedDevice).compartments 5
          ≠ bootedDevice.compartments 5
      ∧ (handleLEDControl 5 "#FF0000" 50 bootedDevice).pixels 15 ≠ bootedDevice.pixels 15
      ∧ (handleLEDControl 5 "#FF0000" 50 bootedDevice).events
          = bootedDevice.events ++
            [Event.stripShow, Event.mqttPublish bootedDevice.responseTopic [ledAck 5]] := by
  decide

/-- C2, amended. For every index outside `[0,6)`, every colour string and
brightness, `handleLEDControl` only prints its banner and the rejection line
on the serial console: the compartments array, every pixel, the list of
library calls (so nothing is published) and all other state are unchanged. -/
theorem handleLEDControl_out_of_range (c : Int) (color : String) (brightness : Int)
    (s : Device) (h : c < 0 ∨ c ≥ 6) :
    handleLEDControl c color brightness s =
        { s with serial := s.serial ++ ledBanner c color brightness
                    ++ ["Invalid compartment number\r\n"] }
      ∧ (handleLEDControl c color brightness s).compartments = s.compartments
      ∧ (handleLEDControl c color brightness s).pixels = s.pixels
      ∧ (handleLEDControl c color brightness s).events = s.events := by
  have e := handleLEDControl_rejected c color brightness s h
  refine ⟨e, ?_, ?_, ?_⟩ <;> rw [e]

/-- C2 amended, at index 6. -/
theorem handleLEDControl_out_of_range_six :
    ((6 : Int) < 0 ∨ (6 : Int) ≥ 6)
      ∧ (handleLEDControl 6 "#FF0000" 50 bootedDevice).compartments = bootedDevice.compartments
      ∧ (handleLEDControl 6 "#FF0000" 50 bootedDevice).pixels = bootedDevice.pixels
      ∧ (handleLEDControl 6 "#FF0000" 50 bootedDevice).events = bootedDevice.events :=
  ⟨by decide, (handleLEDControl_out_of_range 6 "#FF0000" 50 bootedDevice (by decide)).2⟩

/-- C7 as stated fails: with base colour `0xFFFFFF`, brightness 100 renders a
red channel of 255 and brightness 101 renders 1, since `255 * 101 / 100 = 257`
is narrowed to eight bits. -/
theorem setCompartmentColor_not_monotone :
    (100 : Nat) < 101
      ∧ redOf ((setCompartmentColor 0 0xFFFFFF 100 bootedDevice).pixels 0) = 255
      ∧ redOf ((setCompartmentColor 0 0xFFFFFF 101 bootedDevice).pixels 0) = 1
      ∧ ¬ (redOf ((setCompartmentColor 0 0xFFFFFF 100 bootedDevice).pixels 0)
            ≤ redOf ((setCompartmentColor 0 0xFFFFFF 101 bootedDevice).pixels 0)) := by
  decide

/-- C7, amended. For brightness values `b1 < b2 ≤ 100`, every base colour,
every compartment `0 ≤ c ≤ 5` and each of its three LEDs, each channel
rendered by `setCompartmentColor` is `channel * brightness / 100` and the
value at `b1` is at most the value at `b2`. -/
theorem setCompartmentColor_monotone (c : Int) (color b1 b2 : Nat) (s t : Device)
    (i : Fin 24) (h0 : 0 ≤ c) (h5 : c ≤ 5)
    (hi : 3 * c.toNat ≤ i.val ∧ i.val ≤ 3 * c.toNat + 2) (h12 : b1 < b2) (h100 : b2 ≤ 100) :
    redOf ((setCompartmentColor c color b1 s).pixels i) = redOf color * b1 / 100
      ∧ greenOf ((setCompartmentColor c color b1 s).pixels i) = greenOf color * b1 / 100
      ∧ blueOf ((setCompartmentColor c color b1 s).pixels i) = blueOf color * b1 / 100
      ∧ redOf ((setCompartmentColor c color b1 s).pixels i)
          ≤ redOf ((setCompartmentColor c color b2 t).pixels i)
      ∧ greenOf ((setCompartmentColor c color b1 s).pixels i)
          ≤ greenOf ((setCompartmentColor c color b2 t).pixels i)
      ∧ blueOf ((setCompartmentColor c color b1 s).pixels i)
          ≤ blueOf ((setCompartmentColor c color b2 t).pixels i) := by
  have h6 : c < 6 := by omega
  have a1 := adjusted_small color b1 (by omega)
  have a2 := adjusted_small color b2 h100
  have hle : b1 ≤ b2 := Nat.le_of_lt h12
  rw [setCompartmentColor_eq c color b1 s h0 h6, setCompartmentColor_eq c color b2 t h0 h6]
  simp only [hi, and_self, if_true]
  rw [a1.2.1, a1.2.2.1, a1.2.2.2, a2.2.1, a2.2.2.1, a2.2.2.2]
  exact ⟨rfl, rfl, rfl, Nat.div_le_div_right (Nat.mul_le_mul_left _ hle),
    Nat.div_le_div_right (Nat.mul_le_mul_left _ hle),
    Nat.div_le_div_right (Nat.mul_le_mul_left _ hle)⟩

/-- C7 amended, at base colour `0x00FF00`, compartment 2, LED 7 and the
brightness pair 50 < 100: the green channel goes from 127 to 255. -/
theorem setCompartmentColor_monotone_green :
    greenOf ((setCompartmentColor 2 0x00FF00 50 bootedDevice).pixels 7) = 127
      ∧ greenOf ((setCompartmentColor 2 0x00FF00 100 bootedDevice).pixels 7) = 255
      ∧ greenOf ((setCompartmentColor 2 0x00FF00 50 bootedDevice).pixels 7)
          ≤ greenOf ((setCompartmentColor 2 0x00FF00 100 bootedDevice).pixels 7) :=
  ⟨by decide, by decide,
    (setCompartmentColor_monotone 2 0x00FF00 50 100 bootedDevice bootedDevice 7
      (by decide) (by decide) (by decide) (by decide) (by decide)).2.2.2.2.1⟩

/-- C8. A `led_control` command for a compartment `0 ≤ c ≤ 5` and a
brightness percent `0 ≤ b ≤ 100` writes to exactly the LEDs `3c`, `3c+1`,
`3c+2` the colour whose channels are the decoded R, G, B each multiplied by
`b` and divided by 100 with truncation (each result at most 255), leaves every
other LED as it was, pushes the strip, stores the decoded colour and `b` for
compartment `c`, and publishes exactly one message, on the response channel,
with status `success`, message `LED updated` and compartment `c`. -/
theorem led_control_renders (env : Env) (topic : String) (m : Decoded) (s : Device)
    (hcmd : m.command = "led_control")
    (h0 : 0 ≤ m.paramInt "compartment") (h5 : m.paramInt "compartment" ≤ 5)
    (hb0 : 0 ≤ m.paramInt "brightness") (hb1 : m.paramInt "brightness" ≤ 100) :
    (∀ i : Fin 24, (mqttCallback env topic (Except.ok m) s).pixels i =
        if 3 * (m.paramInt "compartment").toNat ≤ i.val
            ∧ i.val ≤ 3 * (m.paramInt "compartment").toNat + 2 then
          Color (redOf (hexToColor (m.paramStr "color")) * (m.paramInt "brightness").toNat / 100)
            (greenOf (hexToColor (m.paramStr "color")) * (m.paramInt "brightness").toNat / 100)
            (blueOf (hexToColor (m.paramStr "color")) * (m.paramInt "brightness").toNat / 100)
        else s.pixels i)
      ∧ redOf (hexToColor (m.paramStr "color")) * (m.paramInt "brightness").toNat / 100 ≤ 255
      ∧ greenOf (hexToColor (m.paramStr "color")) * (m.paramInt "brightness").toNat / 100 ≤ 255
      ∧ blueOf (hexToColor (m.paramStr "color")) * (m.paramInt "brightness").toNat / 100 ≤ 255
      ∧ (mqttCallback env topic (Except.ok m) s).events =
          s.events ++ [Event.stripShow,
            Event.mqttPublish s.responseTopic
              [[("status", JsonValue.str "success"), ("message", JsonValue.str "LED updated"),
                ("compartment", JsonValue.num (m.paramInt "compartment"))]]]
      ∧ (mqttCallback env topic (Except.ok m) s).compartments
            ⟨(m.paramInt "compartment").toNat, by omega⟩
          = { color := hexToColor (m.paramStr "color"),
              brightness := (m.paramInt "brightness").toNat } := by
  have h6 : m.paramInt "compartment" < 6 := by omega
  have hb : (m.paramInt "brightness" % 256).toNat = (m.paramInt "brightness").toNat := by omega
  have hb100 : (m.paramInt "brightness").toNat ≤ 100 := by omega
  have a := adjusted_small (hexToColor (m.paramStr "color")) _ hb100
  have hr : redOf (hexToColor (m.paramStr "color")) < 256 := by
    simp only [redOf, and_255]; omega
  have hg : greenOf (hexToColor (m.paramStr "color")) < 256 := by
    simp only [greenOf, and_255]; omega
  have hbl : blueOf (hexToColor (m.paramStr "color")) < 256 := by
    simp only [blueOf, and_255]; omega
  rw [mqttCallback_led_control env topic m s hcmd, handleLEDControl_accepted _ _ _ _ h0 h6, hb]
  refine ⟨?_, (scale_small _ _ hr hb100).2, (scale_small _ _ hg hb100).2,
    (scale_small _ _ hbl hb100).2, ?_, ?_⟩
  · intro i
    simp only [a.1]
  · simp [ledAck]
  · simp

/-- C8 at the scenario of the specification: compartment 2, colour `#00FF00`,
brightness 50. The stored entry becomes `(0x00FF00, 50)`, LEDs 6, 7 and 8
carry `(0, 127, 0)` and the acknowledgment names compartment 2. -/
theorem led_control_scenario :
    (mqttCallback calmEnv "medication/devices/ESP32_001/command"
        (Except.ok (ledCommand 2 "#00FF00" 50)) bootedDevice).compartments 2
        = { color := 0x00FF00, brightness := 50 }
      ∧ (∀ i : Fin 24, (mqttCallback calmEnv "medication/devices/ESP32_001/command"
          (Except.ok (ledCommand 2 "#00FF00" 50)) bootedDevice).pixels i =
            if 6 ≤ i.val ∧ i.val ≤ 8 then Color 0 127 0 else bootedDevice.pixels i)
      ∧ (mqttCallback calmEnv "medication/devices/ESP32_001/command"
          (Except.ok (ledCommand 2 "#00FF00" 50)) bootedDevice).events =
          bootedDevice.events ++ [Event.stripShow,
            Event.mqttPublish "medication/devices/ESP32_001/response"
              [[("status", JsonValue.str "success"), ("message", JsonValue.str "LED updated"),
                ("compartment", JsonValue.num 2)]]] := by
  have h := led_control_renders calmEnv "medication/devices/ESP32_001/command"
    (ledCommand 2 "#00FF00" 50) bootedDevice rfl (by decide) (by decide) (by decide) (by decide)
  refine ⟨h.2.2.2.2.2.trans (by decide), ?_, h.2.2.2.2.1.trans (by decide)⟩
  intro i
  exact (h.1 i).trans (by revert i; decide)

/-! ## Command dispatch -/

/-- C3. A message whose payload fails to decode, and a decoded message whose
command is none of `reboot`, `ota_update`, `wifi_change`, `led_control`,
`get_status`, make `mqttCallback` print diagnostic lines on the serial console
and do nothing else: no library call is made (so nothing is published and no
restart is triggered), and the compartments array, the network credentials,
the persisted preferences and the pixels are unchanged. -/
theorem mqttCallback_drops (env : Env) (topic : String) (s : Device) :
    (∀ e : String,
        mqttCallback env topic (Except.error e) s =
            { s with serial := s.serial ++
                ["\n=== MQTT Message Received ===\r\n", "Topic: ", topic ++ "\r\n",
                 "JSON parsing failed: ", e ++ "\r\n"] }
          ∧ (mqttCallback env topic (Except.error e) s).events = s.events
          ∧ (mqttCallback env topic (Except.error e) s).restarted = s.restarted
          ∧ (mqttCallback env topic (Except.error e) s).compartments = s.compartments
          ∧ (mqttCallback env topic (Except.error e) s).wifi_ssid = s.wifi_ssid
          ∧ (mqttCallback env topic (Except.error e) s).wifi_password = s.wifi_password
          ∧ (mqttCallback env topic (Except.error e) s).preferences = s.preferences
          ∧ (mqttCallback env topic (Except.error e) s).pixels = s.pixels)
      ∧ (∀ m : Decoded,
          m.command ≠ "reboot" → m.command ≠ "ota_update" → m.command ≠ "wifi_change" →
          m.command ≠ "led_control" → m.command ≠ "get_status" →
          mqttCallback env topic (Except.ok m) s =
              { s with serial := s.serial ++
                  ["\n=== MQTT Message Received ===\r\n", "Topic: ", topic ++ "\r\n",
                   "Command: ", m.command ++ "\r\n",
                   "Unknown command: " ++ m.command ++ "\r\n"] }
            ∧ (mqttCallback env topic (Except.ok m) s).events = s.events
            ∧ (mqttCallback env topic (Except.ok m) s).restarted = s.restarted
            ∧ (mqttCallback env topic (Except.ok m) s).compartments = s.compartments
            ∧ (mqttCallback env topic (Except.ok m) s).wifi_ssid = s.wifi_ssid
            ∧ (mqttCallback env topic (Except.ok m) s).wifi_password = s.wifi_password
            ∧ (mqttCallback env topic (Except.ok m) s).preferences = s.preferences
            ∧ (mqttCallback env topic (Except.ok m) s).pixels = s.pixels) := by
  constructor
  · intro e
    have h : mqttCallback env topic (Except.error e) s =
        { s with serial := s.serial ++
            ["\n=== MQTT Message Received ===\r\n", "Topic: ", topic ++ "\r\n",
             "JSON parsing failed: ", e ++ "\r\n"] } := by
      unfold mqttCallback
      simp [Serial_println, Serial_print]
    refine ⟨h, ?_, ?_, ?_, ?_, ?_, ?_, ?_⟩ <;> rw [h]
  · intro m h1 h2 h3 h4 h5
    have h : mqttCallback env topic (Except.ok m) s =
        { s with serial := s.serial ++
            ["\n=== MQTT Message Received ===\r\n", "Topic: ", topic ++ "\r\n",
             "Command: ", m.command ++ "\r\n",
             "Unknown command: " ++ m.command ++ "\r\n"] } := by
      unfold mqttCallback
      simp [h1, h2, h3, h4, h5, Serial_println, Serial_print]
    refine ⟨h, ?_, ?_, ?_, ?_, ?_, ?_, ?_⟩ <;> rw [h]

/-- C3 at the unknown command `blink`, with `led_control` parameters that
would otherwise be valid: no library call is made and nothing is restarted. -/
theorem mqttCallback_drops_blink :
    (mqttCallback calmEnv "medication/devices/ESP32_001/command"
        (Except.ok { ledCommand 2 "#00FF00" 50 with command := "blink" }) bootedDevice).events
        = bootedDevice.events
      ∧ (mqttCallback calmEnv "medication/devices/ESP32_001/command"
        (Except.ok { ledCommand 2 "#00FF00" 50 with command := "blink" }) bootedDevice).restarted
        = false :=
  have h := (mqttCallback_drops calmEnv "medication/devices/ESP32_001/command" bootedDevice).2
    { ledCommand 2 "#00FF00" 50 with command := "blink" }
    (by decide) (by decide) (by decide) (by decide) (by decide)
  ⟨h.2.1, h.2.2.1.trans (by decide)⟩

/-! ## Telemetry timer -/

/-- C9 as stated fails: after a boot whose status publish read the clock at
30000 ms, the first `loop` iteration reads 31000 ms at its interval check,
1000 ms after the most recent `publishStatus`, and the interval publish fires
all the same, because the check compares with the stamp 0 set at power-on. -/
theorem loop_fires_after_boot_publish :
    slowBootDevice.events.getLast?
        = some (Event.mqttPublish "medication/devices/ESP32_001/status" [sampleStatus 30])
      ∧ slowBootEnv.millis 1 = 30000
      ∧ slowBootDevice.nMillis = 2
      ∧ slowBootEnv.millis 2 = 31000
      ∧ slowBootEnv.millis 2 - slowBootEnv.millis 1 ≤ 30000
      ∧ slowBootDevice.lastStatusUpdate = 0
      ∧ callsSince slowBootDevice (loop slowBootEnv 2 slowBootDevice).1
          = [Event.mqttPublish "medication/devices/ESP32_001/status" [sampleStatus 32]] := by
  decide

/-- C9, amended. The periodic publish in `loop` is timed from the stamp
`lastStatusUpdate`, which is 0 at power-on and is written only by the interval
check itself. At the check, with `now` the 32-bit clock reading: when
`(now - lastStatusUpdate) mod 2^32 > 30000` exactly one status snapshot is
published and the stamp becomes the clock reading taken after that publish;
otherwise nothing is published and the stamp is kept. A status publish from
boot, from a broker (re)connection or from `get_status` leaves the stamp as it
was, and an iteration of `loop` that reaches its end without a restart is this
check applied to a device that still carries the stamp of the iteration's
start. -/
theorem statusTimer_interval (env : Env) (fuel : Nat) (s : Device) :
    ((env.millis s.nMillis % 2 ^ 32 + 2 ^ 32 - s.lastStatusUpdate) % 2 ^ 32 > 30000 →
        (∃ doc, (statusTimer env s).events = s.events ++ [Event.mqttPublish s.statusTopic [doc]])
          ∧ (statusTimer env s).lastStatusUpdate = env.millis (s.nMillis + 2) % 2 ^ 32)
      ∧ (¬ (env.millis s.nMillis % 2 ^ 32 + 2 ^ 32 - s.lastStatusUpdate) % 2 ^ 32 > 30000 →
          (statusTimer env s).events = s.events
            ∧ (statusTimer env s).lastStatusUpdate = s.lastStatusUpdate)
      ∧ (publishStatus env s).lastStatusUpdate = s.lastStatusUpdate
      ∧ (∀ topic doc, (mqttCallback env topic doc s).lastStatusUpdate = s.lastStatusUpdate)
      ∧ (reconnectMQTT env fuel s).1.lastStatusUpdate = s.lastStatusUpdate
      ∧ (setup env fuel s).1.lastStatusUpdate = s.lastStatusUpdate
      ∧ (∀ prefs, (powerOn prefs).lastStatusUpdate = 0)
      ∧ (beforeStatusTimer env fuel s).lastStatusUpdate = s.lastStatusUpdate
      ∧ ((loop env fuel s).2 = true → (loop env fuel s).1.restarted = false →
          (loop env fuel s).1 = statusTimer env (beforeStatusTimer env fuel s)) := by
  refine ⟨statusTimer_fires env s, ?_, publishStatus_stamp env s,
    fun topic doc => mqttCallback_stamp env topic doc s, reconnectMQTT_stamp env fuel s,
    setup_stamp env fuel s, fun _ => rfl, beforeStatusTimer_stamp env fuel s,
    loop_eq_statusTimer env fuel s⟩
  intro h
  rw [statusTimer_idle env s h]
  exact ⟨rfl, rfl⟩

/-- C9 amended, on two devices: in the slow-boot world the check reads
31000 ms against the stamp 0 and fires, leaving the stamp 33000; in the calm
world it reads 2000 ms and stays idle; and the first `loop` iteration of the
slow-boot device is that check. -/
theorem statusTimer_interval_runs :
    (statusTimer slowBootEnv slowBootDevice).lastStatusUpdate = 33000
      ∧ (statusTimer calmEnv bootedDevice).events = bootedDevice.events
      ∧ (loop slowBootEnv 2 slowBootDevice).1
          = statusTimer slowBootEnv (beforeStatusTimer slowBootEnv 2 slowBootDevice) :=
  ⟨((statusTimer_interval slowBootEnv 2 slowBootDevice).1 (by decide)).2.trans (by decide),
    ((statusTimer_interval calmEnv 2 bootedDevice).2.1 (by decide)).1,
    (statusTimer_interval slowBootEnv 2 slowBootDevice).2.2.2.2.2.2.2.2 (by decide) (by decide)⟩

/-! ## Firmware update -/

/-- C4 on the code. When the download answers 404 the terminal publish of
`handleOTAUpdate` carries the `starting` document followed by the `failed`
document with message `HTTP error: 404`, not the `failed` document alone, and
when every step succeeds it carries `starting` followed by `success`: the
`String output` is serialised into a second time without being cleared. The
rest of the claim holds on both runs: the first message is `starting` alone,
no flash call is made after the 404, nothing restarts after the 404 and the
successful run ends with a 1000 ms wait and the restart. -/
theorem handleOTAUpdate_terminal_payload :
    publishedOn bootedDevice.responseTopic (callsSince bootedDevice
        (handleOTAUpdate { calmEnv with ota := fun _ => notFoundOta } "http://h/fw.bin" "1.0.1"
          bootedDevice))
        = [[response "starting" "OTA update initiated"],
           [response "starting" "OTA update initiated", response "failed" "HTTP error: 404"]]
      ∧ [response "starting" "OTA update initiated", response "failed" "HTTP error: 404"]
          ≠ [response "failed" "HTTP error: 404"]
      ∧ (callsSince bootedDevice
          (handleOTAUpdate { calmEnv with ota := fun _ => notFoundOta } "http://h/fw.bin" "1.0.1"
            bootedDevice)).all (fun e => !isFlashCall e) = true
      ∧ (handleOTAUpdate { calmEnv with ota := fun _ => notFoundOta } "http://h/fw.bin" "1.0.1"
          bootedDevice).restarted = false
      ∧ callsSince bootedDevice (handleOTAUpdate calmEnv "http://h/fw.bin" "1.0.1" bootedDevice)
          = [Event.mqttPublish bootedDevice.responseTopic
               [response "starting" "OTA update initiated"],
             Event.httpBegin "http://h/fw.bin", Event.httpGet 200, Event.updateBegin 1000 true,
             Event.updateWriteStream 1000, Event.updateEnd true,
             Event.mqttPublish bootedDevice.responseTopic
               [response "starting" "OTA update initiated",
                response "success" "Update complete, rebooting"],
             Event.delay 1000, Event.restart]
      ∧ (handleOTAUpdate calmEnv "http://h/fw.bin" "1.0.1" bootedDevice).restarted = true := by
  decide

/-! ## Broker retry loop -/

/-- C10 as stated fails: for a booted device that lost its session, with the
link down at every poll and every handshake refused, `reconnectMQTT` has not
returned after any number of rounds. -/
theorem reconnectMQTT_link_down_no_return :
    (∀ k, deafEnv.wifiStatus k = false)
      ∧ ¬ ∃ fuel, (reconnectMQTT deafEnv fuel droppedDevice).2 = true := by
  refine ⟨fun _ => rfl, ?_⟩
  rintro ⟨fuel, h⟩
  rw [reconnectMQTT_all_refused deafEnv fuel droppedDevice rfl
    (fun j _ => by simp [deafEnv])] at h
  simp at h

/-- C10, amended. `reconnectMQTT` never reads the link status and has no
attempt cap. Its library calls are a sequence of handshake rounds: a refused
handshake is followed by `delay(5000)`, an accepted one by the subscription of
the command channel and one status snapshot. It returns only at a loop test
where `mqttClient.connected()` reports true, with the session established:
at once when the session is established on entry, otherwise directly after an
accepted round; so while every loop test finds the session closed it does not
return, even when handshakes are accepted. Entered without a session: while
every handshake is refused it does not return, whatever the link status, and
its calls are refused handshakes each followed by `delay(5000)`; and when `k`
handshakes are refused, the next is accepted and the session is still open at
the loop test that follows, it returns after exactly those `k` refused rounds
and one accepted round. -/
theorem reconnectMQTT_retry_policy (env : Env) (s : Device) :
    (∀ fuel, (reconnectMQTT env fuel s).1.nWifi = s.nWifi)
      ∧ (∀ fuel, ∃ outcomes : List (Option JsonDoc),
          (reconnectMQTT env fuel s).1.events
              = s.events ++ roundsOf (brokerCredentials s) s.commandTopic s.statusTopic outcomes
            ∧ ((reconnectMQTT env fuel s).2 = true →
                (reconnectMQTT env fuel s).1.session = true
                  ∧ ((outcomes = [] ∧ (s.session && env.sessionAlive s.nAlive) = true)
                      ∨ ∃ init doc, outcomes = init ++ [some doc])))
      ∧ (∀ fuel, (∀ j, j < fuel → env.sessionAlive (s.nAlive + j) = false) →
          (reconnectMQTT env fuel s).2 = false)
      ∧ (s.session = false →
          ∀ fuel, (∀ j, j < fuel → env.brokerConnect (s.nConnect + j) ≠ 0) →
            (reconnectMQTT env fuel s).2 = false
              ∧ (reconnectMQTT env fuel s).1.events
                  = s.events ++ failedRounds (brokerCredentials s) fuel)
      ∧ (s.session = false →
          ∀ k fuel, (∀ j, j < k → env.brokerConnect (s.nConnect + j) ≠ 0) →
            env.brokerConnect (s.nConnect + k) = 0 →
            env.sessionAlive (s.nAlive + k + 1) = true →
            (reconnectMQTT env (fuel + k + 2) s).2 = true
              ∧ (reconnectMQTT env (fuel + k + 2) s).1.session = true
              ∧ ∃ doc, (reconnectMQTT env (fuel + k + 2) s).1.events
                  = s.events ++ failedRounds (brokerCredentials s) k ++
                      [Event.mqttConnect ("ESP32_" ++ DEVICE_ID) (brokerCredentials s) true,
                       Event.mqttSubscribe s.commandTopic,
                       Event.mqttPublish s.statusTopic [doc]]) := by
  refine ⟨fun fuel => reconnectMQTT_nWifi env fuel s, ?_,
    fun fuel => reconnectMQTT_closed env fuel s, ?_, ?_⟩
  · intro fuel
    obtain ⟨outcomes, he, hr⟩ := reconnectMQTT_rounds env fuel s
    exact ⟨outcomes, he, fun h => ⟨reconnectMQTT_returns_connected env fuel s h, hr h⟩⟩
  · intro hs fuel hall
    rw [reconnectMQTT_all_refused env fuel s hs hall]
    simp [afterFailedRounds]
  · intro hs k fuel hall hok halive
    rw [reconnectMQTT_accepted_after env k fuel s hs hall hok halive]
    simp [afterHandshake, afterFailedRounds, publishStatus, millis, mqttPublish, serializeJson,
      Serial_println, emit, brokerCredentials]

/-- C10 amended, for a booted device that lost its session. In a world whose
link is down throughout and whose broker refuses the next two handshakes
before accepting one, the function has not returned after two rounds and has
returned two rounds later, with the session established, after two refused
handshakes each followed by a 5000 ms wait, the accepted handshake, the
subscription and one status snapshot. In a world whose broker accepts every
handshake while every loop test finds the session closed, it has not returned
after six rounds. -/
theorem reconnectMQTT_retry_policy_runs :
    (∀ k, stubbornEnv.wifiStatus k = false)
      ∧ (reconnectMQTT stubbornEnv 2 droppedDevice).2 = false
      ∧ (reconnectMQTT stubbornEnv 4 droppedDevice).2 = true
      ∧ (reconnectMQTT stubbornEnv 4 droppedDevice).1.session = true
      ∧ (reconnectMQTT stubbornEnv 4 droppedDevice).1.nWifi = droppedDevice.nWifi
      ∧ (∃ doc, (reconnectMQTT stubbornEnv 4 droppedDevice).1.events
          = bootedDevice.events ++
            [Event.mqttConnect "ESP32_ESP32_001" none false, Event.delay 5000,
             Event.mqttConnect "ESP32_ESP32_001" none false, Event.delay 5000,
             Event.mqttConnect "ESP32_ESP32_001" none true,
             Event.mqttSubscribe "medication/devices/ESP32_001/command",
             Event.mqttPublish "medication/devices/ESP32_001/status" [doc]])
      ∧ (reconnectMQTT closingEnv 6 droppedDevice).2 = false
      ∧ handshakes (reconnectMQTT closingEnv 6 droppedDevice).1.events
          = handshakes droppedDevice.events + 6 :=
  have h := reconnectMQTT_retry_policy stubbornEnv droppedDevice
  have h2 := h.2.2.2.2 rfl 2 0 (by decide) (by decide) (by decide)
  ⟨fun _ => rfl, (h.2.2.2.1 rfl 2 (by decide)).1, h2.1, h2.2.1, h.1 4,
    h2.2.2.imp (fun _ e => e.trans rfl),
    (reconnectMQTT_retry_policy closingEnv droppedDevice).2.2.1 6 (by decide), by decide⟩

/-! ## Connection stages -/

end Pilly
